/-
Verification of the MoltLaunch self-verify trust-level engine.

This file gives a shallow embedding of the repository's core:
- the SQLite-backed row store (src/db.js) as a pure state `DBState`,
- the trust-level state machine routes (src/routes/selfVerify.js) as
  state-transition functions, with all external I/O (forum check, endpoint
  fetches, ledger anchor dispatch, device reads, Ed25519 checks) passed in
  as oracle arguments so that every possible outcome is quantified over,
- the mobile challenge store (src/lib/mobile.js),
- the behavioral similarity engine (src/lib/behavioral.js) over exact reals.

Timestamps are modelled as natural numbers of milliseconds since the epoch
(the code stores ISO strings derived from `Date.now()`); JS numbers in the
similarity engine are modelled as exact reals.
-/
import Mathlib

namespace MoltVerify

/-! ## Data model (tables of src/db.js) -/

/-- One row of the `agents` table (src/db.js `initTables`). -/
structure Agent where
  id : String
  name : Option String := none
  description : Option String := none
  capabilities : Option String := none
  level : Nat := 0
  levelLabel : String := "registered"
  challengeCode : Option String := none
  challengeToken : Option String := none
  codeUrl : Option String := none
  apiEndpoint : Option String := none
  onChainSig : Option String := none
  ipHash : Option String := none
  termsVersion : Option String := none
  registeredAt : Option Nat := none
  confirmedAt : Option Nat := none
  verifiedAt : Option Nat := none
  expiresAt : Option Nat := none
  revoked : Bool := false
  createdAt : Option Nat := none
  updatedAt : Option Nat := none
deriving DecidableEq

/-- One row of the `extended_verification` table (src/db.js). The raw
feature vector is stored JSON-serialized, modelled as an opaque string. -/
structure ExtVerification where
  agentId : String
  fingerprint : Option String := none
  fingerprintUniqueness : Option ℚ := none
  fingerprintFeatures : Option String := none
  depinProvider : Option String := none
  depinDevicePda : Option String := none
  depinBindingHash : Option String := none
  depinOnChainSig : Option String := none
  mobileDevicePubkey : Option String := none
  mobileVerified : Bool := false
  mobileOnChainSig : Option String := none
  behavioralAt : Option Nat := none
  hardwareAt : Option Nat := none
  mobileAt : Option Nat := none
deriving DecidableEq

/-- One row of the `sybil_signals` table. -/
structure SybilSignal where
  agentId : String
  signalType : String
  signalValue : String
  detectedAt : Nat
deriving DecidableEq

/-- One row of the `audit_log` table (details field omitted: opaque JSON). -/
structure AuditEntry where
  agentId : String
  action : String
  ipHash : Option String := none
  createdAt : Nat
deriving DecidableEq

/-- One row of the `pending_anchors` table. `retries` defaults to 0 on
insertion (src/db.js `initTables`: `retries INTEGER DEFAULT 0`). -/
structure PendingAnchor where
  id : Nat
  agentId : String
  memo : String
  createdAt : Nat
  retries : Nat := 0
deriving DecidableEq

/-- One row of the in-memory mobile challenge store
(src/lib/mobile.js `challenges` map). -/
structure StoredChallenge where
  challenge : String
  expiresAt : Nat
  used : Bool := false
deriving DecidableEq

/-- The mobile challenge map, keyed by agent id. -/
abbrev ChallengeStore := List (String × StoredChallenge)

/-- The whole persistent state: the five tables plus the in-process mobile
challenge map and the auto-increment counter of `pending_anchors`. -/
structure DBState where
  agents : List Agent := []
  ext : List ExtVerification := []
  sybilSignals : List SybilSignal := []
  auditLog : List AuditEntry := []
  pendingAnchors : List PendingAnchor := []
  nextAnchorId : Nat := 1
  mobileChallenges : ChallengeStore := []
deriving DecidableEq

/-! ## Row-store operations (src/db.js) -/

/-- `getAgent(id)`: `SELECT * FROM agents WHERE id = ?` (first match). -/
def getAgent (s : DBState) (id : String) : Option Agent :=
  s.agents.find? (fun a => a.id = id)

/-- `getExtendedVerification(agentId)`. -/
def getExtendedVerification (s : DBState) (agentId : String) : Option ExtVerification :=
  s.ext.find? (fun e => e.agentId = agentId)

/-- `UPDATE agents SET ... WHERE id = ?`: apply `f` to every row whose id
matches (ids are unique in SQLite, `find?` reads the first). -/
def updateAgent (s : DBState) (id : String) (f : Agent → Agent) : DBState :=
  { s with agents := s.agents.map (fun a => if a.id = id then f a else a) }

/-- 30 days in milliseconds: `30 * 24 * 60 * 60 * 1000` (src/db.js). -/
def thirtyDaysMs : Nat := 30 * 24 * 60 * 60 * 1000

/-- `createAgent` (src/db.js): INSERT of a fresh L0 row, with
`expires_at = Date.now() + 30 days`. -/
def createAgent (s : DBState) (id : String) (name description capabilities : Option String)
    (challengeCode : String) (ipHash : String) (termsVersion : String) (now : Nat) : DBState :=
  { s with agents := s.agents ++ [{
      id := id
      name := name
      description := description
      capabilities := capabilities
      level := 0
      levelLabel := "registered"
      challengeCode := some challengeCode
      ipHash := some ipHash
      termsVersion := some termsVersion
      registeredAt := some now
      expiresAt := some (now + thirtyDaysMs)
      createdAt := some now
      updatedAt := some now }] }

/-- Row update of `confirmAgent`: level 1 / label 'confirmed', the L2
challenge token, and `expires_at` refreshed to now + 30 days. -/
def confirmAgentF (challengeToken : String) (now : Nat) (a : Agent) : Agent :=
  { a with
    level := 1
    levelLabel := "confirmed"
    challengeToken := some challengeToken
    confirmedAt := some now
    expiresAt := some (now + thirtyDaysMs)
    updatedAt := some now }

/-- `confirmAgent` (src/db.js). -/
def confirmAgent (s : DBState) (id : String) (challengeToken : String) (now : Nat) : DBState :=
  updateAgent s id (confirmAgentF challengeToken now)

/-- Row update of `verifyAgent`: level 2 / label 'verified', the endpoint
data, and `expires_at` refreshed to now + 30 days. -/
def verifyAgentF (apiEndpoint codeUrl : String) (onChainSig : Option String)
    (now : Nat) (a : Agent) : Agent :=
  { a with
    level := 2
    levelLabel := "verified"
    apiEndpoint := some apiEndpoint
    codeUrl := some codeUrl
    onChainSig := onChainSig
    verifiedAt := some now
    expiresAt := some (now + thirtyDaysMs)
    updatedAt := some now }

/-- `verifyAgent` (src/db.js). -/
def verifyAgent (s : DBState) (id : String) (apiEndpoint codeUrl : String)
    (onChainSig : Option String) (now : Nat) : DBState :=
  updateAgent s id (verifyAgentF apiEndpoint codeUrl onChainSig now)

/-- Row update writing only `level`, `level_label`, `updated_at` — the
agent-side write of `setBehavioral` / `setHardware` / `setMobile`. -/
def levelWriteF (level : Nat) (label : String) (now : Nat) (a : Agent) : Agent :=
  { a with level := level, levelLabel := label, updatedAt := some now }

/-- Row update of `updateOnChainSig`. -/
def onChainSigF (sig : String) (now : Nat) (a : Agent) : Agent :=
  { a with onChainSig := some sig, updatedAt := some now }

/-- `updateOnChainSig` (src/db.js). -/
def updateOnChainSig (s : DBState) (id : String) (sig : String) (now : Nat) : DBState :=
  updateAgent s id (onChainSigF sig now)

/-- Upsert helper shared by `setBehavioral` / `setHardware` / `setMobile`:
update the existing `extended_verification` row, else insert `fresh`. -/
def upsertExt (s : DBState) (agentId : String) (f : ExtVerification → ExtVerification)
    (fresh : ExtVerification) : DBState :=
  match getExtendedVerification s agentId with
  | some _ => { s with ext := s.ext.map (fun e => if e.agentId = agentId then f e else e) }
  | none => { s with ext := s.ext ++ [fresh] }

/-- `setBehavioral` (src/db.js): upserts the fingerprint fields and sets the
agent to level 3 / 'behavioral'. Note: `expires_at` is NOT touched. -/
def setBehavioral (s : DBState) (agentId : String) (fingerprint : String)
    (uniqueness : ℚ) (features : String) (now : Nat) : DBState :=
  let s1 := upsertExt s agentId
    (fun e => { e with
      fingerprint := some fingerprint
      fingerprintUniqueness := some uniqueness
      fingerprintFeatures := some features
      behavioralAt := some now })
    { agentId := agentId
      fingerprint := some fingerprint
      fingerprintUniqueness := some uniqueness
      fingerprintFeatures := some features
      behavioralAt := some now }
  updateAgent s1 agentId (levelWriteF 3 "behavioral" now)

/-- `setHardware` (src/db.js): upserts the DePIN fields and sets the agent
to level 4 / 'hardware'. Note: `expires_at` is NOT touched. -/
def setHardware (s : DBState) (agentId : String) (provider devicePDA bindingHash : String)
    (onChainSig : Option String) (now : Nat) : DBState :=
  let s1 := upsertExt s agentId
    (fun e => { e with
      depinProvider := some provider
      depinDevicePda := some devicePDA
      depinBindingHash := some bindingHash
      depinOnChainSig := onChainSig
      hardwareAt := some now })
    { agentId := agentId
      depinProvider := some provider
      depinDevicePda := some devicePDA
      depinBindingHash := some bindingHash
      depinOnChainSig := onChainSig
      hardwareAt := some now }
  updateAgent s1 agentId (levelWriteF 4 "hardware" now)

/-- `setMobile` (src/db.js): upserts the mobile fields and sets the agent
to level 5 / 'mobile'. Note: `expires_at` is NOT touched. -/
def setMobile (s : DBState) (agentId : String) (devicePubkey : String)
    (onChainSig : Option String) (now : Nat) : DBState :=
  let s1 := upsertExt s agentId
    (fun e => { e with
      mobileDevicePubkey := some devicePubkey
      mobileVerified := true
      mobileOnChainSig := onChainSig
      mobileAt := some now })
    { agentId := agentId
      mobileDevicePubkey := some devicePubkey
      mobileVerified := true
      mobileOnChainSig := onChainSig
      mobileAt := some now }
  updateAgent s1 agentId (levelWriteF 5 "mobile" now)

/-- `addAuditLog` (src/db.js). -/
def addAuditLog (s : DBState) (agentId action : String) (ipHash : Option String)
    (now : Nat) : DBState :=
  let entry : AuditEntry := { agentId := agentId, action := action, ipHash := ipHash, createdAt := now }
  { s with auditLog := s.auditLog ++ [entry] }

/-- `addSybilSignal` (src/db.js). -/
def addSybilSignal (s : DBState) (agentId signalType signalValue : String)
    (now : Nat) : DBState :=
  let entry : SybilSignal := { agentId := agentId, signalType := signalType, signalValue := signalValue, detectedAt := now }
  { s with sybilSignals := s.sybilSignals ++ [entry] }

/-- `addPendingAnchor` (src/db.js): INSERT of agent id and memo; `retries`
takes its column default 0. -/
def addPendingAnchor (s : DBState) (agentId memo : String) (now : Nat) : DBState :=
  let entry : PendingAnchor := { id := s.nextAnchorId, agentId := agentId, memo := memo, createdAt := now, retries := 0 }
  { s with
    pendingAnchors := s.pendingAnchors ++ [entry]
    nextAnchorId := s.nextAnchorId + 1 }

/-- `getPendingAnchors` (src/db.js): `SELECT * FROM pending_anchors WHERE
retries < 5` — the active set the periodic sweep re-attempts. -/
def getPendingAnchors (s : DBState) : List PendingAnchor :=
  s.pendingAnchors.filter (fun p => p.retries < 5)

/-- `removePendingAnchor` (src/db.js): `DELETE ... WHERE id = ?`. -/
def removePendingAnchor (s : DBState) (id : Nat) : DBState :=
  { s with pendingAnchors := s.pendingAnchors.filter (fun p => ¬ p.id = id) }

/-- `incrementPendingAnchorRetry` (src/db.js): `UPDATE pending_anchors SET
retries = retries + 1 WHERE id = ?`. -/
def incrementPendingAnchorRetry (s : DBState) (id : Nat) : DBState :=
  { s with pendingAnchors := s.pendingAnchors.map (fun p =>
      if p.id = id then { p with retries := p.retries + 1 } else p) }

/-- The shape of `fullDump` (src/db.js): every row of every table,
unfiltered. -/
structure FullDump where
  agents : List Agent
  sybilSignals : List SybilSignal
  auditLog : List AuditEntry
  pendingAnchors : List PendingAnchor
deriving DecidableEq

/-- `fullDump` (src/db.js): `SELECT *` over each table, no filtering. -/
def fullDump (s : DBState) : FullDump :=
  { agents := s.agents
    sybilSignals := s.sybilSignals
    auditLog := s.auditLog
    pendingAnchors := s.pendingAnchors }

/-- `countRegistrationsFromIp` (src/db.js): count of agents sharing the ip
hash registered since the start of the current day (passed as `dayStart`). -/
def countRegistrationsFromIp (s : DBState) (ipHash : String) (dayStart : Nat) : Nat :=
  (s.agents.filter (fun a => a.ipHash == some ipHash &&
    match a.registeredAt with
    | some r => decide (dayStart ≤ r)
    | none => false)).length

/-! ## Mobile challenge store (src/lib/mobile.js)

The Ed25519 primitives are external: public-key parsing and
`nacl.sign.detached.verify` enter as boolean oracle arguments, quantified
over in every theorem. -/

/-- `challenges.get(agentId)` on the in-memory map. -/
def lookupChallenge (store : ChallengeStore) (agentId : String) : Option StoredChallenge :=
  (store.find? (fun p => p.1 = agentId)).map Prod.snd

/-- `challenges.delete(agentId)`. -/
def eraseChallenge (store : ChallengeStore) (agentId : String) : ChallengeStore :=
  store.filter (fun p => ¬ p.1 = agentId)

/-- Mark the stored challenge used (`stored.used = true`). -/
def setChallengeUsed (store : ChallengeStore) (agentId : String) : ChallengeStore :=
  store.map (fun p => if p.1 = agentId then (p.1, { p.2 with used := true }) else p)

/-- `challenges.set(agentId, c)`: replace in place when present, else append. -/
def setChallenge (store : ChallengeStore) (agentId : String) (c : StoredChallenge) :
    ChallengeStore :=
  if store.any (fun p => p.1 = agentId) then
    store.map (fun p => if p.1 = agentId then (p.1, c) else p)
  else store ++ [(agentId, c)]

/-- `CHALLENGE_EXPIRY_MS = 5 * 60 * 1000`. -/
def challengeExpiryMs : Nat := 5 * 60 * 1000

/-- `cleanExpiredChallenges`: delete every entry past expiry plus the
one-minute grace period (`now > data.expiresAt + 60000`). -/
def cleanExpiredChallenges (store : ChallengeStore) (now : Nat) : ChallengeStore :=
  store.filter (fun p => ¬ (p.2.expiresAt + 60000 < now))

/-- `generateChallenge` (src/lib/mobile.js): store a fresh unused challenge
(the random 32-byte nonce is the oracle argument `nonce`), overwriting any
prior challenge for the agent, then garbage-collect expired entries.
Returns the new store together with the (challenge, expiresAt) response. -/
def generateChallenge (store : ChallengeStore) (agentId nonce : String) (now : Nat) :
    ChallengeStore × String × Nat :=
  let expiresAt := now + challengeExpiryMs
  let store1 := setChallenge store agentId
    { challenge := nonce, expiresAt := expiresAt, used := false }
  (cleanExpiredChallenges store1 now, nonce, expiresAt)

/-- Result of `verifyChallenge`: `valid: true`, or `valid: false` with the
error string. -/
inductive MVResult where
  | valid
  | invalid (error : String)
deriving DecidableEq

/-- `verifyChallenge` (src/lib/mobile.js): look up the challenge, check
expiry (deleting an expired challenge), check the used flag, validate the
device pubkey (oracle `pubkeyOk`), check the decoded signature length
(oracle `sigLen`), run Ed25519 verification (oracle `sigValid`), and on
success mark the challenge used. Returns the updated store and verdict. -/
def verifyChallenge (store : ChallengeStore) (now : Nat) (agentId : String)
    (pubkeyOk : Bool) (sigLen : Nat) (sigValid : Bool) : ChallengeStore × MVResult :=
  match lookupChallenge store agentId with
  | none => (store, .invalid "No pending challenge found. Request one first via GET /api/self-verify/mobile/challenge")
  | some stored =>
    if stored.expiresAt < now then
      (eraseChallenge store agentId, .invalid "Challenge expired. Request a new one.")
    else if stored.used then
      (store, .invalid "Challenge already used. Request a new one.")
    else if ¬ pubkeyOk then
      (store, .invalid "Invalid devicePubkey")
    else if ¬ sigLen = 64 then
      (store, .invalid ("Invalid signature length: expected 64 bytes, got " ++ toString sigLen))
    else if ¬ sigValid then
      (store, .invalid "Signature verification failed. The signature does not match the challenge + devicePubkey.")
    else
      (setChallengeUsed store agentId, .valid)

/-! ## Trust-level state machine (src/routes/selfVerify.js) -/

/-- `LEVEL_LABELS` (src/routes/selfVerify.js); levels outside 0–5 have no
entry (JS `undefined`), modelled as the empty string. -/
def canonicalLabel : Nat → String
  | 0 => "registered"
  | 1 => "confirmed"
  | 2 => "verified"
  | 3 => "behavioral"
  | 4 => "hardware"
  | 5 => "mobile"
  | _ => ""

/-- The agent-id regex of the register route: 3–64 chars, ASCII
alphanumeric plus hyphen and underscore. -/
def validAgentId (id : String) : Bool :=
  3 ≤ id.length && id.length ≤ 64 &&
    id.toList.all (fun c => c.isAlphanum || c = '-' || c = '_')

/-- `buildMemo` (src/lib/solana.js): the canonical anchor memo string
`molt:sv:agentId:Llevel:label:unixTs`. -/
def buildMemo (agentId : String) (level : Nat) (label : String) (unixTs : Nat) : String :=
  "molt:sv:" ++ agentId ++ ":L" ++ toString level ++ ":" ++ label ++ ":" ++ toString unixTs

/-- HTTP-level outcome of a route call, as far as the claims need it. -/
inductive RouteResult where
  | ok (level : Nat) (levelLabel : String) (message : Option String)
  | created (level : Nat) (levelLabel : String) (challengeCode : String)
  | challengeIssued (challenge : String) (expiresAt : Nat)
  | conflict (existingLevel : Nat) (existingLabel : String)
  | badRequest (error : String)
  | notFound (error : String)
  | forbidden (error : String)
  | tooManyRequests (error : String)
  | badGateway (error : String)
deriving DecidableEq

/-- The `.then(sig => ...)/.catch(...)` continuation after an anchor
dispatch (confirm / verify / behavioral handlers): a signature is attached
to the agent row; a null result or a thrown error both fall back to
`addPendingAnchor`. The dispatch outcome is the oracle `sig`. -/
def applyAnchorResult (s : DBState) (agentId memo : String) (sig : Option String)
    (now : Nat) : DBState :=
  match sig with
  | some sg => updateOnChainSig s agentId sg now
  | none => addPendingAnchor s agentId memo now

/-- Register-route input, with the externally produced values (challenge
code, ip hash, day boundary, clock) as oracle fields. -/
structure RegisterInput where
  agentId : String
  acceptTerms : Bool
  name : Option String := none
  description : Option String := none
  capabilities : Option String := none
  challengeCode : String
  ipHash : String
  dayStart : Nat
  now : Nat
deriving DecidableEq

/-- POST /api/self-verify (L0 registration). -/
def registerRoute (s : DBState) (input : RegisterInput) : DBState × RouteResult :=
  if input.agentId = "" then (s, .badRequest "agentId is required (string)")
  else if ¬ validAgentId input.agentId then
    (s, .badRequest "agentId must be 3-64 chars, alphanumeric with hyphens/underscores")
  else if ¬ input.acceptTerms then (s, .badRequest "You must accept the terms of service")
  else match getAgent s input.agentId with
  | some existing => (s, .conflict existing.level (canonicalLabel existing.level))
  | none =>
    if 10 ≤ countRegistrationsFromIp s input.ipHash input.dayStart then
      (s, .tooManyRequests "Too many registrations from this IP today. Max 10 per day.")
    else
      let s1 := createAgent s input.agentId input.name input.description input.capabilities
        input.challengeCode input.ipHash "v1.0" input.now
      let s2 := addAuditLog s1 input.agentId "register" (some input.ipHash) input.now
      let s3 := if 1 < countRegistrationsFromIp s2 input.ipHash input.dayStart then
          addSybilSignal s2 input.agentId "ip_cluster" input.ipHash input.now
        else s2
      (s3, .created 0 "registered" input.challengeCode)

/-- POST /api/self-verify/confirm (L0 → L1). `forumResult` is the outcome
of `verifyChallengeOnForum`: a thrown network error or a found flag. The
anchor dispatch outcome is `anchorSig`. -/
def confirmRoute (s : DBState) (agentId : String) (forumResult : Except String Bool)
    (newToken : String) (anchorSig : Option String) (now : Nat) : DBState × RouteResult :=
  if agentId = "" then (s, .badRequest "agentId is required")
  else match getAgent s agentId with
  | none => (s, .notFound "Agent not found. Register first at POST /api/self-verify")
  | some agent =>
    if agent.revoked then (s, .forbidden "Agent verification has been revoked")
    else if 1 ≤ agent.level then
      (s, .ok agent.level (canonicalLabel agent.level) (some "Agent already confirmed at L1 or higher"))
    else if agent.challengeCode.getD "" = "" then
      (s, .badRequest "No challenge code found. Register first.")
    else match forumResult with
    | .error _ => (s, .badGateway "Failed to check Colosseum forum")
    | .ok found =>
      if ¬ found then (s, .badRequest "Challenge code not found on forum")
      else
        let s1 := confirmAgent s agentId newToken now
        let s2 := addAuditLog s1 agentId "confirm" none now
        let memo := buildMemo agentId 1 "confirmed" (now / 1000)
        let s3 := applyAnchorResult s2 agentId memo anchorSig now
        (s3, .ok 1 "confirmed" none)

/-- Body of the well-known file once fetched: parse failure, or the
`agentId` / `token` fields (absent fields as `none`). -/
inductive BodyParse where
  | invalid
  | fields (agentId : Option String) (token : Option String)
deriving DecidableEq

/-- Outcome of fetching the well-known URL: network error or a response. -/
inductive FetchOutcome where
  | fetchError (msg : String)
  | response (status : Nat) (body : BodyParse)
deriving DecidableEq

/-- Outcome of fetching the declared code URL. -/
inductive CodeFetch where
  | fetchError (msg : String)
  | response (status : Nat)
deriving DecidableEq

/-- Failure collection over the well-known file (verify handler, check 1):
HTTP 200, valid JSON, and exact match of both the agent id and the stored
challenge token. -/
def wellKnownErrors (agentId : String) (tokenInDb : Option String)
    (wk : FetchOutcome) : List String :=
  match wk with
  | .fetchError msg => ["Failed to fetch well-known URL: " ++ msg]
  | .response status body =>
    if ¬ status = 200 then
      ["/.well-known/moltlaunch.json returned HTTP " ++ toString status ++ " (expected 200)"]
    else match body with
    | .invalid => ["/.well-known/moltlaunch.json is not valid JSON"]
    | .fields aid tok =>
      (match aid with
       | some a => if a = agentId then [] else ["agentId in moltlaunch.json does not match your agentId"]
       | none => ["agentId in moltlaunch.json does not match your agentId"]) ++
      (match tok, tokenInDb with
       | some t, some t' =>
         if t = t' then [] else ["token in moltlaunch.json does not match your challenge token"]
       | _, _ => ["token in moltlaunch.json does not match your challenge token"])

/-- Failure collection over the code URL (verify handler, check 2):
any 2xx/3xx status passes. -/
def codeUrlErrors (cu : CodeFetch) : List String :=
  match cu with
  | .fetchError msg => ["Failed to fetch codeUrl: " ++ msg]
  | .response status =>
    if status < 200 ∨ 400 ≤ status then
      ["codeUrl returned HTTP " ++ toString status ++ " (expected 2xx/3xx)"]
    else []

/-- POST /api/self-verify/verify (L1 → L2). URL well-formedness of the two
inputs and the two fetch outcomes are oracle arguments. Failures from both
checks are collected together (not short-circuited). -/
def verifyRoute (s : DBState) (agentId apiEndpoint codeUrl : String)
    (apiUrlOk codeUrlOk : Bool) (wk : FetchOutcome) (cu : CodeFetch)
    (anchorSig : Option String) (now : Nat) : DBState × RouteResult :=
  if agentId = "" then (s, .badRequest "agentId is required")
  else if apiEndpoint = "" then (s, .badRequest "apiEndpoint is required (your live API base URL)")
  else if codeUrl = "" then (s, .badRequest "codeUrl is required (your public code repository URL)")
  else match getAgent s agentId with
  | none => (s, .notFound "Agent not found. Register first.")
  | some agent =>
    if agent.revoked then (s, .forbidden "Agent verification has been revoked")
    else if agent.level < 1 then
      (s, .badRequest "Agent must be L1 confirmed before L2 verification. Complete the forum challenge first.")
    else if 2 ≤ agent.level then
      (s, .ok agent.level (canonicalLabel agent.level) (some "Agent already verified at L2"))
    else if ¬ apiUrlOk then (s, .badRequest "apiEndpoint must be a valid URL")
    else if ¬ codeUrlOk then (s, .badRequest "codeUrl must be a valid URL")
    else
      let failures := wellKnownErrors agentId agent.challengeToken wk ++ codeUrlErrors cu
      if ¬ failures = [] then (s, .badRequest "Infrastructure verification failed")
      else
        let s1 := verifyAgent s agentId apiEndpoint codeUrl none now
        let s2 := addAuditLog s1 agentId "verify" none now
        let sameEndpoint := s2.agents.filter
          (fun a => a.apiEndpoint == some apiEndpoint && ¬ a.id = agentId)
        let s3 := if ¬ sameEndpoint = [] then
            sameEndpoint.foldl (fun st a => addSybilSignal st a.id "endpoint_cluster" apiEndpoint now)
              (addSybilSignal s2 agentId "endpoint_cluster" apiEndpoint now)
          else s2
        let memo := buildMemo agentId 2 "verified" (now / 1000)
        let s4 := applyAnchorResult s3 agentId memo anchorSig now
        (s4, .ok 2 "verified" none)

/-- Result of `getBehavioralFingerprint` (src/lib/behavioral.js) as the
behavioral route consumes it; the uniqueness score the route stores and
compares against 0.3 is the 4-decimal rounded value, hence rational. -/
structure FPResult where
  fingerprint : String
  features : String
  uniquenessScore : ℚ
  postCount : Option Nat := none
deriving DecidableEq

/-- POST /api/self-verify/behavioral (L2 → L3). `fp` is the outcome of
`getBehavioralFingerprint` (none when the agent has no activity history). -/
def behavioralRoute (s : DBState) (agentId : String) (fp : Option FPResult)
    (anchorSig : Option String) (now : Nat) : DBState × RouteResult :=
  if agentId = "" then (s, .badRequest "agentId is required")
  else match getAgent s agentId with
  | none => (s, .notFound "Agent not found. Register first at POST /api/self-verify")
  | some agent =>
    if agent.revoked then (s, .forbidden "Agent verification has been revoked")
    else if agent.level < 2 then
      (s, .badRequest "Agent must be L2 (verified) before L3 behavioral verification.")
    else if 3 ≤ agent.level then
      (s, .ok agent.level (canonicalLabel agent.level) (some "Agent already at L3 or higher"))
    else match fp with
    | none => (s, .notFound "No behavioral data found for this agent")
    | some r =>
      let s1 := if r.uniquenessScore < 3/10 then
          addSybilSignal s agentId "behavioral_similarity" ("uniqueness=" ++ toString r.uniquenessScore) now
        else s
      let s2 := setBehavioral s1 agentId r.fingerprint r.uniquenessScore r.features now
      let s3 := addAuditLog s2 agentId "behavioral" none now
      let memo := buildMemo agentId 3 "behavioral" (now / 1000)
      let s4 := applyAnchorResult s3 agentId memo anchorSig now
      (s4, .ok 3 "behavioral" none)

/-- Device data returned by `readDevicePDA` (src/lib/depin.js); the raw
account data is opaque. -/
structure DeviceRead where
  provider : String
  programId : String
  devicePDA : String
  accountData : String
  isReal : Bool
  notes : String
deriving DecidableEq

/-- `createBinding` (src/lib/depin.js); the SHA-256 digest enters as the
function argument `hash`. -/
structure Binding where
  agentId : String
  depinProvider : String
  depinProgram : String
  devicePDA : String
  deviceData : String
  bindingHash : String
  bindingInput : String
  bindingTimestamp : Nat

def createBinding (agentId : String) (d : DeviceRead) (timestamp : Nat)
    (hash : String → String) : Binding :=
  let bindingInput := agentId ++ ":" ++ d.devicePDA ++ ":" ++ d.provider ++ ":" ++ toString timestamp
  { agentId := agentId
    depinProvider := d.provider
    depinProgram := d.programId
    devicePDA := d.devicePDA
    deviceData := d.accountData
    bindingHash := hash bindingInput
    bindingInput := bindingInput
    bindingTimestamp := timestamp }

/-- `validProviders` of the depin route. -/
def validProviders : List String := ["nosana", "helium", "mock"]

/-- POST /api/self-verify/depin (L3 → L4). `device` is the awaited outcome
of `readDevicePDA`; `anchorSig` the awaited outcome of `anchorBinding`
(none covers both a null result and a caught exception). Note the handler
stores a null on-chain signature on anchor failure and enqueues NO pending
anchor. -/
def depinRoute (s : DBState) (agentId provider devicePDA : String)
    (device : Except String DeviceRead) (hash : String → String)
    (anchorSig : Option String) (now : Nat) : DBState × RouteResult :=
  if agentId = "" then (s, .badRequest "agentId is required")
  else if provider = "" then (s, .badRequest "provider is required (nosana, helium, or mock)")
  else if devicePDA = "" then
    (s, .badRequest "devicePDA is required (Solana public key of device account)")
  else if ¬ provider ∈ validProviders then
    (s, .badRequest "Invalid provider. Must be one of: nosana, helium, mock")
  else match getAgent s agentId with
  | none => (s, .notFound "Agent not found. Register first.")
  | some agent =>
    if agent.revoked then (s, .forbidden "Agent verification has been revoked")
    else if agent.level < 3 then
      (s, .badRequest "Agent must be L3 (behavioral) before L4 hardware binding.")
    else if 4 ≤ agent.level then
      (s, .ok agent.level (canonicalLabel agent.level) (some "Agent already at L4 or higher"))
    else match device with
    | .error _ => (s, .badRequest "Failed to read device PDA")
    | .ok d =>
      let binding := createBinding agentId d now hash
      let s1 := setHardware s agentId binding.depinProvider binding.devicePDA
        binding.bindingHash anchorSig now
      let s2 := addAuditLog s1 agentId "depin_binding" none now
      (s2, .ok 4 "hardware" none)

/-- GET /api/self-verify/mobile/challenge: issue an L5 challenge (requires
L4; note this read-modify route performs no revoked check in the source). -/
def mobileChallengeRoute (s : DBState) (agentId nonce : String) (now : Nat) :
    DBState × RouteResult :=
  if agentId = "" then (s, .badRequest "agentId query parameter is required")
  else match getAgent s agentId with
  | none => (s, .notFound "Agent not found.")
  | some agent =>
    if agent.level < 4 then
      (s, .badRequest "Agent must be L4 (hardware) before L5 mobile verification.")
    else
      let r := generateChallenge s.mobileChallenges agentId nonce now
      ({ s with mobileChallenges := r.1 }, .challengeIssued r.2.1 r.2.2)

/-- POST /api/self-verify/mobile (L4 → L5). The Ed25519 oracles feed the
embedded `verifyChallenge`; `anchorSig` is the awaited outcome of
`anchorMobileVerification` (none covers null and caught exceptions) —
as in the depin handler, anchor failure enqueues NO pending anchor. -/
def mobileRoute (s : DBState) (agentId challengeResponse devicePubkey : String)
    (pubkeyOk : Bool) (sigLen : Nat) (sigValid : Bool)
    (anchorSig : Option String) (now : Nat) : DBState × RouteResult :=
  if agentId = "" then (s, .badRequest "agentId is required")
  else if challengeResponse = "" then
    (s, .badRequest "challengeResponse is required (base64-encoded Ed25519 signature)")
  else if devicePubkey = "" then
    (s, .badRequest "devicePubkey is required (Solana public key string)")
  else match getAgent s agentId with
  | none => (s, .notFound "Agent not found.")
  | some agent =>
    if agent.revoked then (s, .forbidden "Agent verification has been revoked")
    else if agent.level < 4 then
      (s, .badRequest "Agent must be L4 (hardware) before L5 mobile verification.")
    else if 5 ≤ agent.level then
      (s, .ok 5 "mobile" (some "Agent already at L5 (mobile)"))
    else
      let vc := verifyChallenge s.mobileChallenges now agentId pubkeyOk sigLen sigValid
      let s1 := { s with mobileChallenges := vc.1 }
      match vc.2 with
      | .invalid err => (s1, .badRequest ("Mobile verification failed: " ++ err))
      | .valid =>
        let s2 := setMobile s1 agentId devicePubkey anchorSig now
        let s3 := addAuditLog s2 agentId "mobile_verify" none now
        (s3, .ok 5 "mobile" none)

/-- One core operation with all its oracle inputs. -/
inductive Op where
  | register (input : RegisterInput)
  | confirm (agentId : String) (forumResult : Except String Bool) (newToken : String)
      (anchorSig : Option String) (now : Nat)
  | verify (agentId apiEndpoint codeUrl : String) (apiUrlOk codeUrlOk : Bool)
      (wk : FetchOutcome) (cu : CodeFetch) (anchorSig : Option String) (now : Nat)
  | behavioral (agentId : String) (fp : Option FPResult) (anchorSig : Option String) (now : Nat)
  | depin (agentId provider devicePDA : String) (device : Except String DeviceRead)
      (hash : String → String) (anchorSig : Option String) (now : Nat)
  | mobileChallengeReq (agentId nonce : String) (now : Nat)
  | mobile (agentId challengeResponse devicePubkey : String) (pubkeyOk : Bool)
      (sigLen : Nat) (sigValid : Bool) (anchorSig : Option String) (now : Nat)

/-- Dispatch an operation to its route handler. -/
def applyOp (s : DBState) : Op → DBState × RouteResult
  | .register input => registerRoute s input
  | .confirm id fr tk sig now => confirmRoute s id fr tk sig now
  | .verify id api code aOk cOk wk cu sig now => verifyRoute s id api code aOk cOk wk cu sig now
  | .behavioral id fp sig now => behavioralRoute s id fp sig now
  | .depin id prov pda dev h sig now => depinRoute s id prov pda dev h sig now
  | .mobileChallengeReq id nonce now => mobileChallengeRoute s id nonce now
  | .mobile id cr pk pkOk sl sv sig now => mobileRoute s id cr pk pkOk sl sv sig now

/-- The agent id and target level of the five upgrade transitions. -/
def transitionTarget : Op → Option (String × Nat)
  | .confirm id _ _ _ _ => some (id, 1)
  | .verify id _ _ _ _ _ _ _ _ => some (id, 2)
  | .behavioral id _ _ _ => some (id, 3)
  | .depin id _ _ _ _ _ _ => some (id, 4)
  | .mobile id _ _ _ _ _ _ _ => some (id, 5)
  | _ => none

/-- The input-validation conditions a transition request must pass before
the handler consults the agent row (JS falsy checks on required fields and
the depin provider whitelist). -/
def validInputs : Op → Prop
  | .confirm id _ _ _ _ => ¬ id = ""
  | .verify id api code _ _ _ _ _ _ => ¬ id = "" ∧ ¬ api = "" ∧ ¬ code = ""
  | .behavioral id _ _ _ => ¬ id = ""
  | .depin id prov pda _ _ _ _ => ¬ id = "" ∧ ¬ prov = "" ∧ ¬ pda = "" ∧ prov ∈ validProviders
  | .mobile id cr pk _ _ _ _ _ => ¬ id = "" ∧ ¬ cr = "" ∧ ¬ pk = ""
  | _ => True

/-- The anchor-dispatch oracle of an operation, when it has one. -/
def anchorOracle : Op → Option (Option String)
  | .confirm _ _ _ sig _ => some sig
  | .verify _ _ _ _ _ _ _ sig _ => some sig
  | .behavioral _ _ sig _ => some sig
  | .depin _ _ _ _ _ sig _ => some sig
  | .mobile _ _ _ _ _ _ sig _ => some sig
  | _ => none

/-- The request clock of an operation. -/
def opNow : Op → Nat
  | .register input => input.now
  | .confirm _ _ _ _ now => now
  | .verify _ _ _ _ _ _ _ _ now => now
  | .behavioral _ _ _ now => now
  | .depin _ _ _ _ _ _ now => now
  | .mobileChallengeReq _ _ now => now
  | .mobile _ _ _ _ _ _ _ now => now

/-- A fresh (non-idempotent) success response and its reported level: the
success branch of each transition returns `.ok target label none`, while
the idempotent branch always carries a message. -/
def isFreshOk : RouteResult → Option Nat
  | .ok level _ none => some level
  | _ => none

/-! ## Behavioral similarity engine (src/lib/behavioral.js)

JS numbers are modelled as exact reals; `Math.sqrt` is `Real.sqrt` and
`Math.round` is Mathlib's `round` (both round halves toward positive
infinity). -/

noncomputable section

/-- The accumulated `dotProduct` of the `cosineSimilarity` loop. -/
def dot (a b : List ℝ) : ℝ := (List.zipWith (fun x y => x * y) a b).sum

/-- The accumulated `normA` of the loop: the sum of `a[i] * a[i]`. -/
def normSq (a : List ℝ) : ℝ := dot a a

/-- `cosineSimilarity` (src/lib/behavioral.js): 0 on length mismatch or a
zero norm, else `dot / (sqrt(normA) * sqrt(normB))`. -/
def cosineSimilarity (a b : List ℝ) : ℝ :=
  if ¬ a.length = b.length then 0
  else if normSq a = 0 ∨ normSq b = 0 then 0
  else dot a b / (Real.sqrt (normSq a) * Real.sqrt (normSq b))

/-- `Math.round(x * 10000) / 10000`, the engine's 4-decimal rounding. -/
def round4 (x : ℝ) : ℝ := (round (x * 10000) : ℤ) / 10000

/-- `features.timing` of a behavioral feature set. -/
structure TimingFeatures where
  hourDistribution : List ℝ
  dayDistribution : List ℝ
  avgInterval : ℝ

/-- `features.content` of a behavioral feature set. -/
structure ContentFeatures where
  avgLength : ℝ
  vocabRichness : ℝ
  questionRatio : ℝ
  codeBlockRatio : ℝ
  markdownDensity : ℝ

/-- A behavioral feature set (`features.topics.topicDistribution` is a JS
object, modelled as a key-value list with the object's key order). -/
structure Features where
  timing : TimingFeatures
  content : ContentFeatures
  topicDistribution : List (String × ℝ)

/-- `obj[key] || 0`: look a topic up in a distribution, defaulting to 0. -/
def lookupD (l : List (String × ℝ)) (k : String) : ℝ :=
  match l.find? (fun p => p.1 = k) with
  | some p => p.2
  | none => 0

/-- The four scores `combinedSimilarity` returns. -/
structure SimScores where
  timing : ℝ
  content : ℝ
  topic : ℝ
  combined : ℝ

/-- `combinedSimilarity` (src/lib/behavioral.js): the weighted timing /
content / topic blend, each output rounded to 4 decimals. -/
def combinedSimilarity (f1 f2 : Features) : SimScores :=
  let hourSim := cosineSimilarity f1.timing.hourDistribution f2.timing.hourDistribution
  let daySim := cosineSimilarity f1.timing.dayDistribution f2.timing.dayDistribution
  let maxInterval := max (max f1.timing.avgInterval f2.timing.avgInterval) 1
  let intervalSim := 1 - |f1.timing.avgInterval - f2.timing.avgInterval| / maxInterval
  let timing := hourSim * 0.5 + daySim * 0.3 + intervalSim * 0.2
  let maxLen := max (max f1.content.avgLength f2.content.avgLength) 1
  let lenSim := 1 - |f1.content.avgLength - f2.content.avgLength| / maxLen
  let vocabSim := 1 - |f1.content.vocabRichness - f2.content.vocabRichness|
  let qSim := 1 - |f1.content.questionRatio - f2.content.questionRatio|
  let codeSim := 1 - |f1.content.codeBlockRatio - f2.content.codeBlockRatio|
  let content := lenSim * 0.3 + vocabSim * 0.3 + qSim * 0.2 + codeSim * 0.2
  let keys := f1.topicDistribution.map Prod.fst
  let v1 := keys.map (lookupD f1.topicDistribution)
  let v2 := keys.map (lookupD f2.topicDistribution)
  let topic := cosineSimilarity v1 v2
  { timing := round4 timing
    content := round4 content
    topic := round4 topic
    combined := round4 (timing * 0.3 + content * 0.3 + topic * 0.4) }

/-- `computeUniqueness` (src/lib/behavioral.js). The caller has already
removed the agent itself and drawn the random sample of at most 50 other
agents; the sample enters here as a list (so theorems quantify over every
possible draw), entries without stored features as `none` (the loop's
`continue`). Empty population: 1.0; no comparable entries: 1.0; else
`round4(1 - average combined similarity)`. -/
def computeUniqueness (agentFeatures : Features) (sample : List (Option Features)) : ℝ :=
  if sample.isEmpty then 1
  else
    let sims := (sample.filterMap id).map
      (fun f => (combinedSimilarity agentFeatures f).combined)
    if sims.isEmpty then 1
    else round4 (1 - sims.sum / sims.length)

end

/-! ## Store lemmas -/

theorem getAgent_id {s : DBState} {i : String} {a : Agent}
    (h : getAgent s i = some a) : a.id = i := by
  have := List.find?_some h
  simpa using this

theorem find?_map_idPreserving (l : List Agent) (x i : String) (f : Agent → Agent)
    (hf : ∀ a, (f a).id = a.id) :
    (l.map (fun a => if a.id = x then f a else a)).find? (fun a => a.id = i) =
      (l.find? (fun a => a.id = i)).map (fun a => if a.id = x then f a else a) := by
  induction l with
  | nil => rfl
  | cons hd tl ih =>
    have hid : (if hd.id = x then f hd else hd).id = hd.id := by
      by_cases hx : hd.id = x <;> simp [hx, hf]
    simp only [List.map_cons]
    by_cases hi : hd.id = i
    · rw [List.find?_cons_of_pos _ (by simp only [hid, decide_eq_true_eq]; exact hi),
        List.find?_cons_of_pos _ (by simpa using hi)]
      rfl
    · rw [List.find?_cons_of_neg _ (by simp only [hid, decide_eq_true_eq]; exact hi),
        List.find?_cons_of_neg _ (by simpa using hi), ih]

theorem getAgent_updateAgent (s : DBState) (x : String) (f : Agent → Agent)
    (hf : ∀ a, (f a).id = a.id) (i : String) :
    getAgent (updateAgent s x f) i =
      (getAgent s i).map (fun a => if a.id = x then f a else a) :=
  find?_map_idPreserving s.agents x i f hf

theorem getAgent_updateAgent_self {s : DBState} {x : String} {a : Agent}
    (f : Agent → Agent) (hf : ∀ a, (f a).id = a.id)
    (h : getAgent s x = some a) :
    getAgent (updateAgent s x f) x = some (f a) := by
  rw [getAgent_updateAgent s x f hf x, h]
  simp [getAgent_id h]

theorem getAgent_updateAgent_ne {s : DBState} {x i : String}
    (f : Agent → Agent) (hf : ∀ a, (f a).id = a.id) (h : ¬ i = x) :
    getAgent (updateAgent s x f) i = getAgent s i := by
  rw [getAgent_updateAgent s x f hf i]
  cases hg : getAgent s i with
  | none => rfl
  | some a =>
    have : a.id = i := getAgent_id hg
    simp [this, h]

@[simp] theorem getAgent_addAuditLog (s : DBState) (id act : String) (ih : Option String)
    (now : Nat) (i : String) : getAgent (addAuditLog s id act ih now) i = getAgent s i := rfl

@[simp] theorem getAgent_addSybilSignal (s : DBState) (id st sv : String) (now : Nat)
    (i : String) : getAgent (addSybilSignal s id st sv now) i = getAgent s i := rfl

@[simp] theorem getAgent_addPendingAnchor (s : DBState) (id memo : String) (now : Nat)
    (i : String) : getAgent (addPendingAnchor s id memo now) i = getAgent s i := rfl

theorem agents_upsertExt (s : DBState) (aid : String)
    (f : ExtVerification → ExtVerification) (fresh : ExtVerification) :
    (upsertExt s aid f fresh).agents = s.agents := by
  unfold upsertExt
  split <;> rfl

@[simp] theorem getAgent_upsertExt (s : DBState) (aid : String)
    (f : ExtVerification → ExtVerification) (fresh : ExtVerification) (i : String) :
    getAgent (upsertExt s aid f fresh) i = getAgent s i := by
  unfold upsertExt
  split <;> rfl

@[simp] theorem getAgent_applyAnchorResult_none (s : DBState) (aid memo : String)
    (now : Nat) (i : String) :
    getAgent (applyAnchorResult s aid memo none now) i = getAgent s i := rfl

theorem getAgent_applyAnchorResult_some (s : DBState) (aid memo sg : String)
    (now : Nat) (i : String) :
    getAgent (applyAnchorResult s aid memo (some sg) now) i =
      (getAgent s i).map (fun a =>
        if a.id = aid then onChainSigF sg now a else a) := by
  simp only [applyAnchorResult, updateOnChainSig]
  exact getAgent_updateAgent s aid (onChainSigF sg now) (fun a => rfl) i

/-! ## C8: the pending-anchor retry ceiling -/

/-- C8: a pending-anchor entry whose retry counter has reached the ceiling
of 5 is excluded from the active set the periodic sweep re-attempts
(`getPendingAnchors`, `retries < 5`), yet reaching the ceiling never
deletes it: it stays in the table under retry increments and remains
visible in the full data dump. -/
theorem pendingAnchor_ceiling (s : DBState) (e : PendingAnchor)
    (hmem : e ∈ s.pendingAnchors) (hceil : 5 ≤ e.retries) :
    e ∉ getPendingAnchors s ∧
    e ∈ (fullDump s).pendingAnchors ∧
    ∀ i, ∃ e', e' ∈ (incrementPendingAnchorRetry s i).pendingAnchors ∧
      e'.id = e.id ∧ e'.agentId = e.agentId ∧ e'.memo = e.memo := by
  refine ⟨?_, hmem, ?_⟩
  · intro hmem'
    have h2 := (List.mem_filter.mp hmem').2
    simp only [decide_eq_true_eq] at h2
    omega
  · intro i
    refine ⟨if e.id = i then { e with retries := e.retries + 1 } else e, ?_, ?_, ?_, ?_⟩
    · exact List.mem_map_of_mem _ hmem
    all_goals by_cases h : e.id = i <;> simp [h]

/-- Witness instance of C8 at a concrete ceiling-level entry. -/
def anchorW : PendingAnchor :=
  { id := 7, agentId := "agent-001", memo := "molt:sv:agent-001:L1:confirmed:0", createdAt := 0, retries := 5 }

/-- Witness state holding `anchorW`. -/
def stateW8 : DBState := { pendingAnchors := [anchorW] }

/-! ## Route characterizations

For each transition route: either the final state is the initial state and
the result is not a fresh success, or the handler took its success path and
the final state is the recorded chain of store writes (named below). -/

/-- Store writes of the confirm handler's success path. -/
def confirmSuccessState (s : DBState) (id tk : String) (sig : Option String)
    (now : Nat) : DBState :=
  applyAnchorResult (addAuditLog (confirmAgent s id tk now) id "confirm" none now)
    id (buildMemo id 1 "confirmed" (now / 1000)) sig now

/-- Store writes of the verify handler's success path. -/
def verifySuccessState (s : DBState) (id api code : String) (sig : Option String)
    (now : Nat) : DBState :=
  let s2 := addAuditLog (verifyAgent s id api code none now) id "verify" none now
  let sameEndpoint := s2.agents.filter (fun b => b.apiEndpoint == some api && ¬ b.id = id)
  let s3 := if ¬ sameEndpoint = [] then
      sameEndpoint.foldl (fun st b => addSybilSignal st b.id "endpoint_cluster" api now)
        (addSybilSignal s2 id "endpoint_cluster" api now)
    else s2
  applyAnchorResult s3 id (buildMemo id 2 "verified" (now / 1000)) sig now

/-- Store writes of the behavioral handler's success path. -/
def behavioralSuccessState (s : DBState) (id : String) (r : FPResult)
    (sig : Option String) (now : Nat) : DBState :=
  let s1 := if r.uniquenessScore < 3/10 then
      addSybilSignal s id "behavioral_similarity" ("uniqueness=" ++ toString r.uniquenessScore) now
    else s
  applyAnchorResult
    (addAuditLog (setBehavioral s1 id r.fingerprint r.uniquenessScore r.features now)
      id "behavioral" none now)
    id (buildMemo id 3 "behavioral" (now / 1000)) sig now

/-- Store writes of the depin handler's success path (no pending anchor —
the anchor outcome goes straight into the extended-verification row). -/
def depinSuccessState (s : DBState) (id : String) (d : DeviceRead)
    (hash : String → String) (sig : Option String) (now : Nat) : DBState :=
  let b := createBinding id d now hash
  addAuditLog (setHardware s id b.depinProvider b.devicePDA b.bindingHash sig now)
    id "depin_binding" none now

/-- Store writes of the mobile handler's success path (`store1` is the
challenge store returned by `verifyChallenge`; again no pending anchor). -/
def mobileSuccessState (s : DBState) (id pk : String) (store1 : ChallengeStore)
    (sig : Option String) (now : Nat) : DBState :=
  addAuditLog (setMobile { s with mobileChallenges := store1 } id pk sig now)
    id "mobile_verify" none now

theorem confirmRoute_cases (s : DBState) (id : String) (fr : Except String Bool)
    (tk : String) (sig : Option String) (now : Nat) :
    ((confirmRoute s id fr tk sig now).1 = s ∧
      isFreshOk (confirmRoute s id fr tk sig now).2 = none) ∨
    (∃ a, getAgent s id = some a ∧ a.revoked = false ∧ a.level = 0 ∧
      confirmRoute s id fr tk sig now =
        (confirmSuccessState s id tk sig now, .ok 1 "confirmed" none)) := by
  unfold confirmRoute
  by_cases h1 : id = ""
  · left; simp [h1, isFreshOk]
  · simp only [if_neg h1]
    cases hg : getAgent s id with
    | none => left; simp [isFreshOk]
    | some a =>
      by_cases h2 : a.revoked = true
      · left; simp [h2, isFreshOk]
      · simp only [Bool.not_eq_true] at h2
        by_cases h3 : 1 ≤ a.level
        · left; simp [h2, h3, isFreshOk]
        · by_cases h4 : a.challengeCode.getD "" = ""
          · left; simp [h2, h3, h4, isFreshOk]
          · cases fr with
            | error e => left; simp [h2, h3, h4, isFreshOk]
            | ok found =>
              cases found with
              | false => left; simp [h2, h3, h4, isFreshOk]
              | true =>
                right
                exact ⟨a, rfl, h2, by omega, by simp [h2, h3, h4, confirmSuccessState]⟩

theorem verifyRoute_cases (s : DBState) (id api code : String) (aOk cOk : Bool)
    (wk : FetchOutcome) (cu : CodeFetch) (sig : Option String) (now : Nat) :
    ((verifyRoute s id api code aOk cOk wk cu sig now).1 = s ∧
      isFreshOk (verifyRoute s id api code aOk cOk wk cu sig now).2 = none) ∨
    (∃ a, getAgent s id = some a ∧ a.revoked = false ∧ a.level = 1 ∧
      verifyRoute s id api code aOk cOk wk cu sig now =
        (verifySuccessState s id api code sig now, .ok 2 "verified" none)) := by
  unfold verifyRoute
  by_cases h1 : id = ""
  · left; simp [h1, isFreshOk]
  · simp only [if_neg h1]
    by_cases h1a : api = ""
    · left; simp [h1a, isFreshOk]
    · simp only [if_neg h1a]
      by_cases h1b : code = ""
      · left; simp [h1b, isFreshOk]
      · simp only [if_neg h1b]
        cases hg : getAgent s id with
        | none => left; simp [isFreshOk]
        | some a =>
          by_cases h2 : a.revoked = true
          · left; simp [h2, isFreshOk]
          · simp only [Bool.not_eq_true] at h2
            by_cases h3 : a.level < 1
            · left; simp [h2, h3, isFreshOk]
            · by_cases h4 : 2 ≤ a.level
              · left; simp [h2, h3, h4, isFreshOk]
              · by_cases h5 : aOk = true
                · simp only [h5]
                  by_cases h6 : cOk = true
                  · simp only [h6]
                    by_cases h7 : wellKnownErrors id a.challengeToken wk ++ codeUrlErrors cu = []
                    · right
                      refine ⟨a, rfl, h2, by omega, ?_⟩
                      simp [h2, h3, h4, h7, verifySuccessState]
                    · left; simp [h2, h3, h4, h7, isFreshOk]
                  · left
                    simp only [Bool.not_eq_true] at h6
                    simp [h2, h3, h4, h6, isFreshOk]
                · left
                  simp only [Bool.not_eq_true] at h5
                  simp [h2, h3, h4, h5, isFreshOk]

theorem behavioralRoute_cases (s : DBState) (id : String) (fp : Option FPResult)
    (sig : Option String) (now : Nat) :
    ((behavioralRoute s id fp sig now).1 = s ∧
      isFreshOk (behavioralRoute s id fp sig now).2 = none) ∨
    (∃ a r, getAgent s id = some a ∧ a.revoked = false ∧ a.level = 2 ∧ fp = some r ∧
      behavioralRoute s id fp sig now =
        (behavioralSuccessState s id r sig now, .ok 3 "behavioral" none)) := by
  unfold behavioralRoute
  by_cases h1 : id = ""
  · left; simp [h1, isFreshOk]
  · simp only [if_neg h1]
    cases hg : getAgent s id with
    | none => left; simp [isFreshOk]
    | some a =>
      by_cases h2 : a.revoked = true
      · left; simp [h2, isFreshOk]
      · simp only [Bool.not_eq_true] at h2
        by_cases h3 : a.level < 2
        · left; simp [h2, h3, isFreshOk]
        · by_cases h4 : 3 ≤ a.level
          · left; simp [h2, h3, h4, isFreshOk]
          · cases fp with
            | none => left; simp [h2, h3, h4, isFreshOk]
            | some r =>
              right
              refine ⟨a, r, rfl, h2, by omega, rfl, ?_⟩
              simp [h2, h3, h4, behavioralSuccessState]

theorem depinRoute_cases (s : DBState) (id prov pda : String)
    (device : Except String DeviceRead) (hash : String → String)
    (sig : Option String) (now : Nat) :
    ((depinRoute s id prov pda device hash sig now).1 = s ∧
      isFreshOk (depinRoute s id prov pda device hash sig now).2 = none) ∨
    (∃ a d, getAgent s id = some a ∧ a.revoked = false ∧ a.level = 3 ∧ device = .ok d ∧
      depinRoute s id prov pda device hash sig now =
        (depinSuccessState s id d hash sig now, .ok 4 "hardware" none)) := by
  unfold depinRoute
  by_cases h1 : id = ""
  · left; simp [h1, isFreshOk]
  · simp only [if_neg h1]
    by_cases h1a : prov = ""
    · left; simp [h1a, isFreshOk]
    · simp only [if_neg h1a]
      by_cases h1b : pda = ""
      · left; simp [h1b, isFreshOk]
      · simp only [if_neg h1b]
        by_cases h1c : prov ∈ validProviders
        · simp only [h1c, not_true, if_neg (not_not_intro h1c)]
          cases hg : getAgent s id with
          | none => left; simp [isFreshOk]
          | some a =>
            by_cases h2 : a.revoked = true
            · left; simp [h2, isFreshOk]
            · simp only [Bool.not_eq_true] at h2
              by_cases h3 : a.level < 3
              · left; simp [h2, h3, isFreshOk]
              · by_cases h4 : 4 ≤ a.level
                · left; simp [h2, h3, h4, isFreshOk]
                · cases device with
                  | error e => left; simp [h2, h3, h4, isFreshOk]
                  | ok d =>
                    right
                    refine ⟨a, d, rfl, h2, by omega, rfl, ?_⟩
                    simp [h2, h3, h4, depinSuccessState]
        · left; simp [h1c, isFreshOk]

theorem mobileRoute_cases (s : DBState) (id cr pk : String) (pkOk : Bool)
    (sl : Nat) (sv : Bool) (sig : Option String) (now : Nat) :
    (((mobileRoute s id cr pk pkOk sl sv sig now).1.agents = s.agents ∧
      (mobileRoute s id cr pk pkOk sl sv sig now).1.ext = s.ext ∧
      (mobileRoute s id cr pk pkOk sl sv sig now).1.pendingAnchors = s.pendingAnchors ∧
      isFreshOk (mobileRoute s id cr pk pkOk sl sv sig now).2 = none) ∨
    (∃ a, getAgent s id = some a ∧ a.revoked = false ∧ a.level = 4 ∧
      (verifyChallenge s.mobileChallenges now id pkOk sl sv).2 = .valid ∧
      mobileRoute s id cr pk pkOk sl sv sig now =
        (mobileSuccessState s id pk (verifyChallenge s.mobileChallenges now id pkOk sl sv).1 sig now,
          .ok 5 "mobile" none))) := by
  unfold mobileRoute
  by_cases h1 : id = ""
  · left; simp [h1, isFreshOk]
  · simp only [if_neg h1]
    by_cases h1a : cr = ""
    · left; simp [h1a, isFreshOk]
    · simp only [if_neg h1a]
      by_cases h1b : pk = ""
      · left; simp [h1b, isFreshOk]
      · simp only [if_neg h1b]
        cases hg : getAgent s id with
        | none => left; simp [isFreshOk]
        | some a =>
          by_cases h2 : a.revoked = true
          · left; simp [h2, isFreshOk]
          · simp only [Bool.not_eq_true] at h2
            by_cases h3 : a.level < 4
            · left; simp [h2, h3, isFreshOk]
            · by_cases h4 : 5 ≤ a.level
              · left; simp [h2, h3, h4, isFreshOk]
              · cases hv : (verifyChallenge s.mobileChallenges now id pkOk sl sv).2 with
                | invalid err => left; simp [h2, h3, h4, hv, isFreshOk]
                | valid =>
                  right
                  refine ⟨a, rfl, h2, by omega, rfl, ?_⟩
                  simp [h2, h3, h4, hv, mobileSuccessState]

/-- The agent row the register handler inserts. -/
def freshAgentRow (input : RegisterInput) : Agent :=
  { id := input.agentId
    name := input.name
    description := input.description
    capabilities := input.capabilities
    level := 0
    levelLabel := "registered"
    challengeCode := some input.challengeCode
    ipHash := some input.ipHash
    termsVersion := some "v1.0"
    registeredAt := some input.now
    expiresAt := some (input.now + thirtyDaysMs)
    createdAt := some input.now
    updatedAt := some input.now }

theorem registerRoute_cases (s : DBState) (input : RegisterInput) :
    ((registerRoute s input).1 = s ∧
      ∀ l lb cc, ¬ (registerRoute s input).2 = .created l lb cc) ∨
    (getAgent s input.agentId = none ∧
      (registerRoute s input).1.agents = s.agents ++ [freshAgentRow input] ∧
      (registerRoute s input).2 = .created 0 "registered" input.challengeCode) := by
  unfold registerRoute
  by_cases h1 : input.agentId = ""
  · left; simp [h1]
  · simp only [if_neg h1]
    by_cases h2 : validAgentId input.agentId = true
    · rw [if_neg (not_not_intro h2)]
      by_cases h3 : input.acceptTerms = true
      · rw [if_neg (not_not_intro h3)]
        cases hg : getAgent s input.agentId with
        | some existing => left; simp
        | none =>
          by_cases h4 : 10 ≤ countRegistrationsFromIp s input.ipHash input.dayStart
          · left; simp [h4]
          · right
            refine ⟨rfl, ?_, by simp [h4]⟩
            simp only [if_neg h4]
            split <;> rfl
      · left
        simp only [Bool.not_eq_true] at h3
        simp [h3]
    · left
      simp only [Bool.not_eq_true] at h2
      simp [h2]

theorem mobileChallengeRoute_frame (s : DBState) (id nonce : String) (now : Nat) :
    (mobileChallengeRoute s id nonce now).1.agents = s.agents ∧
    (mobileChallengeRoute s id nonce now).1.ext = s.ext ∧
    (mobileChallengeRoute s id nonce now).1.pendingAnchors = s.pendingAnchors ∧
    isFreshOk (mobileChallengeRoute s id nonce now).2 = none := by
  unfold mobileChallengeRoute
  by_cases h1 : id = ""
  · simp [h1, isFreshOk]
  · simp only [if_neg h1]
    cases hg : getAgent s id with
    | none => simp [isFreshOk]
    | some a =>
      by_cases h3 : a.level < 4 <;> simp [h3, isFreshOk]

/-! ## Agent rows after a success path -/

/-- Effect of the anchor continuation on the target agent row. -/
def anchorAdjust (sig : Option String) (now : Nat) (a : Agent) : Agent :=
  match sig with
  | some sg => onChainSigF sg now a
  | none => a

theorem getAgent_eq_of_agents_eq {s' s : DBState} (h : s'.agents = s.agents)
    (i : String) : getAgent s' i = getAgent s i := by
  unfold getAgent
  rw [h]

theorem agents_foldl_addSybil (l : List Agent) (st0 : DBState) (api : String) (now : Nat) :
    (l.foldl (fun st b => addSybilSignal st b.id "endpoint_cluster" api now) st0).agents =
      st0.agents := by
  induction l generalizing st0 with
  | nil => rfl
  | cons hd tl ih =>
    rw [List.foldl_cons, ih]
    rfl

theorem getAgent_confirmSuccessState (s : DBState) (id tk : String) (sig : Option String)
    (now : Nat) (i : String) :
    getAgent (confirmSuccessState s id tk sig now) i =
      (getAgent s i).map (fun a => if a.id = id then
        anchorAdjust sig now (confirmAgentF tk now a) else a) := by
  unfold confirmSuccessState confirmAgent
  cases sig with
  | none =>
    simp only [getAgent_applyAnchorResult_none, getAgent_addAuditLog]
    exact getAgent_updateAgent s id (confirmAgentF tk now) (fun a => rfl) i
  | some sg =>
    rw [getAgent_applyAnchorResult_some]
    simp only [getAgent_addAuditLog]
    rw [getAgent_updateAgent s id (confirmAgentF tk now) (fun a => rfl) i, Option.map_map]
    cases hga : getAgent s i with
    | none => rfl
    | some a =>
      simp only [Option.map_some', Function.comp]
      by_cases h : a.id = id
      · simp [h, anchorAdjust, confirmAgentF]
      · simp [h]

theorem agents_sybilEndpointBlock (s2 : DBState) (id api : String) (now : Nat)
    (l : List Agent) :
    (if ¬ l = [] then
       l.foldl (fun st b => addSybilSignal st b.id "endpoint_cluster" api now)
         (addSybilSignal s2 id "endpoint_cluster" api now)
     else s2).agents = s2.agents := by
  split
  · rw [agents_foldl_addSybil]
    rfl
  · rfl

theorem getAgent_verifySuccessState (s : DBState) (id api code : String)
    (sig : Option String) (now : Nat) (i : String) :
    getAgent (verifySuccessState s id api code sig now) i =
      (getAgent s i).map (fun a => if a.id = id then
        anchorAdjust sig now (verifyAgentF api code none now a) else a) := by
  unfold verifySuccessState
  have hmid : ∀ j, getAgent
      (let s2 := addAuditLog (verifyAgent s id api code none now) id "verify" none now
       let sameEndpoint := s2.agents.filter (fun b => b.apiEndpoint == some api && ¬ b.id = id)
       if ¬ sameEndpoint = [] then
         sameEndpoint.foldl (fun st b => addSybilSignal st b.id "endpoint_cluster" api now)
           (addSybilSignal s2 id "endpoint_cluster" api now)
       else s2) j =
      getAgent (verifyAgent s id api code none now) j := by
    intro j
    exact getAgent_eq_of_agents_eq (agents_sybilEndpointBlock _ id api now _) j
  cases sig with
  | none =>
    simp only [getAgent_applyAnchorResult_none]
    rw [hmid i]
    unfold verifyAgent
    exact getAgent_updateAgent s id (verifyAgentF api code none now) (fun a => rfl) i
  | some sg =>
    rw [getAgent_applyAnchorResult_some, hmid i]
    unfold verifyAgent
    rw [getAgent_updateAgent s id (verifyAgentF api code none now) (fun a => rfl) i,
      Option.map_map]
    cases hga : getAgent s i with
    | none => rfl
    | some a =>
      simp only [Option.map_some', Function.comp]
      by_cases h : a.id = id
      · simp [h, anchorAdjust, verifyAgentF]
      · simp [h]

theorem getAgent_setBehavioral (s : DBState) (id fp : String) (u : ℚ) (ft : String)
    (now : Nat) (i : String) :
    getAgent (setBehavioral s id fp u ft now) i =
      (getAgent s i).map (fun a => if a.id = id then
        levelWriteF 3 "behavioral" now a else a) := by
  simp only [setBehavioral]
  rw [getAgent_updateAgent _ id (levelWriteF 3 "behavioral" now) (fun a => rfl) i]
  rw [getAgent_upsertExt]

theorem getAgent_behavioralSuccessState (s : DBState) (id : String) (r : FPResult)
    (sig : Option String) (now : Nat) (i : String) :
    getAgent (behavioralSuccessState s id r sig now) i =
      (getAgent s i).map (fun a => if a.id = id then
        anchorAdjust sig now (levelWriteF 3 "behavioral" now a) else a) := by
  unfold behavioralSuccessState
  have hs1 : ∀ j, getAgent
      (if r.uniquenessScore < 3/10 then
        addSybilSignal s id "behavioral_similarity" ("uniqueness=" ++ toString r.uniquenessScore) now
       else s) j = getAgent s j := by
    intro j
    split <;> rfl
  cases sig with
  | none =>
    simp only [getAgent_applyAnchorResult_none, getAgent_addAuditLog]
    rw [getAgent_setBehavioral, hs1 i]
    rfl
  | some sg =>
    rw [getAgent_applyAnchorResult_some]
    simp only [getAgent_addAuditLog]
    rw [getAgent_setBehavioral, hs1 i, Option.map_map]
    cases hga : getAgent s i with
    | none => rfl
    | some a =>
      simp only [Option.map_some', Function.comp]
      by_cases h : a.id = id
      · simp [h, anchorAdjust, levelWriteF]
      · simp [h]

theorem getAgent_setHardware (s : DBState) (id prov pda bh : String)
    (sig : Option String) (now : Nat) (i : String) :
    getAgent (setHardware s id prov pda bh sig now) i =
      (getAgent s i).map (fun a => if a.id = id then
        levelWriteF 4 "hardware" now a else a) := by
  simp only [setHardware]
  rw [getAgent_updateAgent _ id (levelWriteF 4 "hardware" now) (fun a => rfl) i]
  rw [getAgent_upsertExt]

theorem getAgent_depinSuccessState (s : DBState) (id : String) (d : DeviceRead)
    (hash : String → String) (sig : Option String) (now : Nat) (i : String) :
    getAgent (depinSuccessState s id d hash sig now) i =
      (getAgent s i).map (fun a => if a.id = id then
        levelWriteF 4 "hardware" now a else a) := by
  unfold depinSuccessState
  simp only [getAgent_addAuditLog]
  exact getAgent_setHardware ..

theorem getAgent_setMobile (s : DBState) (id pk : String) (sig : Option String)
    (now : Nat) (i : String) :
    getAgent (setMobile s id pk sig now) i =
      (getAgent s i).map (fun a => if a.id = id then
        levelWriteF 5 "mobile" now a else a) := by
  simp only [setMobile]
  rw [getAgent_updateAgent _ id (levelWriteF 5 "mobile" now) (fun a => rfl) i]
  rw [getAgent_upsertExt]

theorem getAgent_mobileSuccessState (s : DBState) (id pk : String)
    (store1 : ChallengeStore) (sig : Option String) (now : Nat) (i : String) :
    getAgent (mobileSuccessState s id pk store1 sig now) i =
      (getAgent s i).map (fun a => if a.id = id then
        levelWriteF 5 "mobile" now a else a) := by
  unfold mobileSuccessState
  simp only [getAgent_addAuditLog]
  exact getAgent_setMobile ..

theorem getAgent_createAgent_of_some {s : DBState} {i : String} {a : Agent}
    (h : getAgent s i = some a) (x : String) (n d c : Option String) (cc ih tv : String)
    (now : Nat) :
    getAgent (createAgent s x n d c cc ih tv now) i = some a := by
  unfold getAgent createAgent at *
  rw [List.find?_append, h]
  rfl

/-! ## C10: the level / level_label coupling invariant -/

/-- The canonical-label invariant: every agent row's `level_label` is the
canonical label of its numeric `level`. -/
def LabelInv (s : DBState) : Prop :=
  ∀ a ∈ s.agents, a.levelLabel = canonicalLabel a.level

theorem labelInv_of_agents_eq {s' s : DBState} (h : s'.agents = s.agents)
    (hs : LabelInv s) : LabelInv s' := by
  intro a ha
  exact hs a (h ▸ ha)

theorem labelInv_updateAgent {s : DBState} {x : String} {f : Agent → Agent}
    (hs : LabelInv s)
    (hf : ∀ a, a.levelLabel = canonicalLabel a.level →
      (f a).levelLabel = canonicalLabel (f a).level) :
    LabelInv (updateAgent s x f) := by
  intro a ha
  simp only [updateAgent, List.mem_map] at ha
  obtain ⟨b, hb, rfl⟩ := ha
  by_cases h : b.id = x
  · simpa [h] using hf b (hs b hb)
  · simpa [h] using hs b hb

theorem labelInv_applyAnchorResult {s : DBState} (aid memo : String)
    (sig : Option String) (now : Nat) (hs : LabelInv s) :
    LabelInv (applyAnchorResult s aid memo sig now) := by
  cases sig with
  | none => exact labelInv_of_agents_eq rfl hs
  | some sg => exact labelInv_updateAgent hs (fun a h => h)

theorem labelInv_confirmSuccessState {s : DBState} (id tk : String)
    (sig : Option String) (now : Nat) (hs : LabelInv s) :
    LabelInv (confirmSuccessState s id tk sig now) := by
  unfold confirmSuccessState
  apply labelInv_applyAnchorResult
  apply labelInv_of_agents_eq rfl
  exact labelInv_updateAgent hs (fun a _ => rfl)

theorem labelInv_verifySuccessState {s : DBState} (id api code : String)
    (sig : Option String) (now : Nat) (hs : LabelInv s) :
    LabelInv (verifySuccessState s id api code sig now) := by
  unfold verifySuccessState
  apply labelInv_applyAnchorResult
  apply labelInv_of_agents_eq (agents_sybilEndpointBlock _ id api now _)
  apply labelInv_of_agents_eq rfl
  exact labelInv_updateAgent hs (fun a _ => rfl)

theorem labelInv_behavioralSuccessState {s : DBState} (id : String) (r : FPResult)
    (sig : Option String) (now : Nat) (hs : LabelInv s) :
    LabelInv (behavioralSuccessState s id r sig now) := by
  unfold behavioralSuccessState
  apply labelInv_applyAnchorResult
  apply labelInv_of_agents_eq rfl
  unfold setBehavioral
  apply labelInv_updateAgent _ (fun a _ => rfl)
  apply labelInv_of_agents_eq (agents_upsertExt _ _ _ _)
  have : LabelInv (if r.uniquenessScore < 3/10 then
      addSybilSignal s id "behavioral_similarity" ("uniqueness=" ++ toString r.uniquenessScore) now
    else s) := by
    split
    · exact labelInv_of_agents_eq rfl hs
    · exact hs
  exact this

theorem labelInv_depinSuccessState {s : DBState} (id : String) (d : DeviceRead)
    (hash : String → String) (sig : Option String) (now : Nat) (hs : LabelInv s) :
    LabelInv (depinSuccessState s id d hash sig now) := by
  unfold depinSuccessState
  apply labelInv_of_agents_eq rfl
  unfold setHardware
  apply labelInv_updateAgent _ (fun a _ => rfl)
  apply labelInv_of_agents_eq (agents_upsertExt _ _ _ _)
  exact hs

theorem labelInv_mobileSuccessState {s : DBState} (id pk : String)
    (store1 : ChallengeStore) (sig : Option String) (now : Nat) (hs : LabelInv s) :
    LabelInv (mobileSuccessState s id pk store1 sig now) := by
  unfold mobileSuccessState
  apply labelInv_of_agents_eq rfl
  unfold setMobile
  apply labelInv_updateAgent _ (fun a _ => rfl)
  apply labelInv_of_agents_eq (agents_upsertExt _ _ _ _)
  exact hs

/-- C10: every core operation writes `level_label` together with `level`,
so in every reachable state each agent row's label is the canonical label
of its numeric level (0 registered, 1 confirmed, 2 verified, 3 behavioral,
4 hardware, 5 mobile): the invariant is preserved by every operation. -/
theorem level_label_invariant (s : DBState) (op : Op) (hs : LabelInv s) :
    LabelInv (applyOp s op).1 := by
  cases op with
  | register input =>
    show LabelInv (registerRoute s input).1
    rcases registerRoute_cases s input with ⟨h, _⟩ | ⟨_, h, _⟩
    · exact labelInv_of_agents_eq (congrArg DBState.agents h) hs
    · intro a ha
      rw [h, List.mem_append] at ha
      rcases ha with ha | ha
      · exact hs a ha
      · simp only [List.mem_singleton] at ha
        subst ha
        rfl
  | confirm id fr tk sig now =>
    show LabelInv (confirmRoute s id fr tk sig now).1
    rcases confirmRoute_cases s id fr tk sig now with ⟨h, _⟩ | ⟨a, _, _, _, h⟩
    · exact labelInv_of_agents_eq (congrArg DBState.agents h) hs
    · rw [congrArg Prod.fst h]
      exact labelInv_confirmSuccessState id tk sig now hs
  | verify id api code aOk cOk wk cu sig now =>
    show LabelInv (verifyRoute s id api code aOk cOk wk cu sig now).1
    rcases verifyRoute_cases s id api code aOk cOk wk cu sig now with ⟨h, _⟩ | ⟨a, _, _, _, h⟩
    · exact labelInv_of_agents_eq (congrArg DBState.agents h) hs
    · rw [congrArg Prod.fst h]
      exact labelInv_verifySuccessState id api code sig now hs
  | behavioral id fp sig now =>
    show LabelInv (behavioralRoute s id fp sig now).1
    rcases behavioralRoute_cases s id fp sig now with ⟨h, _⟩ | ⟨a, r, _, _, _, _, h⟩
    · exact labelInv_of_agents_eq (congrArg DBState.agents h) hs
    · rw [congrArg Prod.fst h]
      exact labelInv_behavioralSuccessState id r sig now hs
  | depin id prov pda device hash sig now =>
    show LabelInv (depinRoute s id prov pda device hash sig now).1
    rcases depinRoute_cases s id prov pda device hash sig now with ⟨h, _⟩ | ⟨a, d, _, _, _, _, h⟩
    · exact labelInv_of_agents_eq (congrArg DBState.agents h) hs
    · rw [congrArg Prod.fst h]
      exact labelInv_depinSuccessState id d hash sig now hs
  | mobileChallengeReq id nonce now =>
    show LabelInv (mobileChallengeRoute s id nonce now).1
    exact labelInv_of_agents_eq (mobileChallengeRoute_frame s id nonce now).1 hs
  | mobile id cr pk pkOk sl sv sig now =>
    show LabelInv (mobileRoute s id cr pk pkOk sl sv sig now).1
    rcases mobileRoute_cases s id cr pk pkOk sl sv sig now with ⟨h, _⟩ | ⟨a, _, _, _, _, h⟩
    · exact labelInv_of_agents_eq h hs
    · rw [congrArg Prod.fst h]
      exact labelInv_mobileSuccessState id pk _ sig now hs

/-- Witness instance of C10: a concrete labelled state pushed through a
concrete confirm operation. -/
def agentW10 : Agent :=
  { id := "agent-001", level := 0, levelLabel := "registered", challengeCode := some "MOLT-VERIFY-deadbeef-1700000000" }

/-- Witness state for C10. -/
def stateW10 : DBState := { agents := [agentW10] }

theorem level_label_invariant_witness :
    LabelInv stateW10 ∧
    LabelInv (applyOp stateW10
      (Op.confirm "agent-001" (Except.ok true) "tok" none 1000)).1 := by
  have h0 : LabelInv stateW10 := by
    intro a ha
    simp only [stateW10, List.mem_singleton] at ha
    subst ha
    rfl
  exact ⟨h0, level_label_invariant stateW10 _ h0⟩

/-! ## C1: levels never decrease; success increments by exactly one -/

theorem level_anchorAdjust (sig : Option String) (now : Nat) (b : Agent) :
    (anchorAdjust sig now b).level = b.level := by
  cases sig <;> rfl

theorem expiresAt_anchorAdjust (sig : Option String) (now : Nat) (b : Agent) :
    (anchorAdjust sig now b).expiresAt = b.expiresAt := by
  cases sig <;> rfl

theorem agent_step_of_mapUpdate {s' s : DBState} {x id : String} {a : Agent}
    (g : Agent → Agent)
    (hmap : getAgent s' id = (getAgent s id).map (fun b => if b.id = x then g b else b))
    (h : getAgent s id = some a) :
    ∃ a', getAgent s' id = some a' ∧
      ((¬ id = x ∧ a' = a) ∨ (id = x ∧ a' = g a)) := by
  by_cases hid : id = x
  · refine ⟨g a, ?_, Or.inr ⟨hid, rfl⟩⟩
    rw [hmap, h]
    simp [getAgent_id h, hid]
  · refine ⟨a, ?_, Or.inl ⟨hid, rfl⟩⟩
    rw [hmap, h]
    simp [getAgent_id h, hid]

theorem some_eq_some_agent {a b : Agent} (h : some a = some b) : a = b := by
  injection h

theorem applyOp_level_step (s : DBState) (op : Op) (id : String) (a : Agent)
    (h : getAgent s id = some a) :
    ∃ a', getAgent (applyOp s op).1 id = some a' ∧ a.level ≤ a'.level ∧
      (∀ t, transitionTarget op = some (id, t) → isFreshOk (applyOp s op).2 = some t →
        a'.level = a.level + 1 ∧ a'.level = t) := by
  cases op with
  | register input =>
    rcases registerRoute_cases s input with ⟨hst, _⟩ | ⟨_, hag, _⟩
    · refine ⟨a, ?_, le_refl _, fun t ht => by simp [transitionTarget] at ht⟩
      show getAgent (registerRoute s input).1 id = some a
      rw [hst]
      exact h
    · refine ⟨a, ?_, le_refl _, fun t ht => by simp [transitionTarget] at ht⟩
      show getAgent (registerRoute s input).1 id = some a
      unfold getAgent at h ⊢
      rw [hag, List.find?_append, h]
      rfl
  | confirm x fr tk sig now =>
    rcases confirmRoute_cases s x fr tk sig now with ⟨hst, hres⟩ | ⟨a0, hg0, hrev, hlev, heq⟩
    · refine ⟨a, ?_, le_refl _, fun t ht hfo => ?_⟩
      · show getAgent (confirmRoute s x fr tk sig now).1 id = some a
        rw [hst]
        exact h
      · have hfo' : isFreshOk (confirmRoute s x fr tk sig now).2 = some t := hfo
        exact Option.noConfusion (hres.symm.trans hfo')
    · have hmap : getAgent (applyOp s (Op.confirm x fr tk sig now)).1 id =
          (getAgent s id).map
            (fun b => if b.id = x then anchorAdjust sig now (confirmAgentF tk now b) else b) := by
        show getAgent (confirmRoute s x fr tk sig now).1 id = _
        rw [congrArg Prod.fst heq]
        exact getAgent_confirmSuccessState s x tk sig now id
      obtain ⟨a', ha', hcase⟩ := agent_step_of_mapUpdate _ hmap h
      have haz : a = a0 ∨ ¬ id = x := by
        by_cases hid : id = x
        · left
          rw [hid] at h
          exact some_eq_some_agent (h.symm.trans hg0)
        · right
          exact hid
      refine ⟨a', ha', ?_, ?_⟩
      · rcases hcase with ⟨_, rfl⟩ | ⟨hid, rfl⟩
        · exact le_refl _
        · rcases haz with rfl | hno
          · rw [level_anchorAdjust]
            show a.level ≤ 1
            omega
          · exact absurd hid hno
      · intro t ht _
        have hx : x = id ∧ 1 = t := by simpa [transitionTarget] using ht
        rcases hcase with ⟨hid, rfl⟩ | ⟨hid, rfl⟩
        · exact absurd hx.1.symm hid
        · rcases haz with rfl | hno
          · rw [level_anchorAdjust]
            show (confirmAgentF tk now a).level = a.level + 1 ∧ (confirmAgentF tk now a).level = t
            have : a.level = 0 := hlev
            constructor
            · show 1 = a.level + 1
              omega
            · show 1 = t
              exact hx.2
          · exact absurd hid hno
  | verify x api code aOk cOk wk cu sig now =>
    rcases verifyRoute_cases s x api code aOk cOk wk cu sig now with
      ⟨hst, hres⟩ | ⟨a0, hg0, hrev, hlev, heq⟩
    · refine ⟨a, ?_, le_refl _, fun t ht hfo => ?_⟩
      · show getAgent (verifyRoute s x api code aOk cOk wk cu sig now).1 id = some a
        rw [hst]
        exact h
      · have hfo' : isFreshOk (verifyRoute s x api code aOk cOk wk cu sig now).2 = some t := hfo
        exact Option.noConfusion (hres.symm.trans hfo')
    · have hmap : getAgent (applyOp s (Op.verify x api code aOk cOk wk cu sig now)).1 id =
          (getAgent s id).map
            (fun b => if b.id = x then anchorAdjust sig now (verifyAgentF api code none now b) else b) := by
        show getAgent (verifyRoute s x api code aOk cOk wk cu sig now).1 id = _
        rw [congrArg Prod.fst heq]
        exact getAgent_verifySuccessState s x api code sig now id
      obtain ⟨a', ha', hcase⟩ := agent_step_of_mapUpdate _ hmap h
      have haz : a = a0 ∨ ¬ id = x := by
        by_cases hid : id = x
        · left
          rw [hid] at h
          exact some_eq_some_agent (h.symm.trans hg0)
        · right
          exact hid
      refine ⟨a', ha', ?_, ?_⟩
      · rcases hcase with ⟨_, rfl⟩ | ⟨hid, rfl⟩
        · exact le_refl _
        · rcases haz with rfl | hno
          · rw [level_anchorAdjust]
            show a.level ≤ 2
            omega
          · exact absurd hid hno
      · intro t ht _
        have hx : x = id ∧ 2 = t := by simpa [transitionTarget] using ht
        rcases hcase with ⟨hid, rfl⟩ | ⟨hid, rfl⟩
        · exact absurd hx.1.symm hid
        · rcases haz with rfl | hno
          · rw [level_anchorAdjust]
            show (verifyAgentF api code none now a).level = a.level + 1 ∧
              (verifyAgentF api code none now a).level = t
            have : a.level = 1 := hlev
            constructor
            · show 2 = a.level + 1
              omega
            · show 2 = t
              exact hx.2
          · exact absurd hid hno
  | behavioral x fp sig now =>
    rcases behavioralRoute_cases s x fp sig now with
      ⟨hst, hres⟩ | ⟨a0, r, hg0, hrev, hlev, hfp, heq⟩
    · refine ⟨a, ?_, le_refl _, fun t ht hfo => ?_⟩
      · show getAgent (behavioralRoute s x fp sig now).1 id = some a
        rw [hst]
        exact h
      · have hfo' : isFreshOk (behavioralRoute s x fp sig now).2 = some t := hfo
        exact Option.noConfusion (hres.symm.trans hfo')
    · have hmap : getAgent (applyOp s (Op.behavioral x fp sig now)).1 id =
          (getAgent s id).map
            (fun b => if b.id = x then anchorAdjust sig now (levelWriteF 3 "behavioral" now b) else b) := by
        show getAgent (behavioralRoute s x fp sig now).1 id = _
        rw [congrArg Prod.fst heq]
        exact getAgent_behavioralSuccessState s x r sig now id
      obtain ⟨a', ha', hcase⟩ := agent_step_of_mapUpdate _ hmap h
      have haz : a = a0 ∨ ¬ id = x := by
        by_cases hid : id = x
        · left
          rw [hid] at h
          exact some_eq_some_agent (h.symm.trans hg0)
        · right
          exact hid
      refine ⟨a', ha', ?_, ?_⟩
      · rcases hcase with ⟨_, rfl⟩ | ⟨hid, rfl⟩
        · exact le_refl _
        · rcases haz with rfl | hno
          · rw [level_anchorAdjust]
            show a.level ≤ 3
            omega
          · exact absurd hid hno
      · intro t ht _
        have hx : x = id ∧ 3 = t := by simpa [transitionTarget] using ht
        rcases hcase with ⟨hid, rfl⟩ | ⟨hid, rfl⟩
        · exact absurd hx.1.symm hid
        · rcases haz with rfl | hno
          · rw [level_anchorAdjust]
            show (levelWriteF 3 "behavioral" now a).level = a.level + 1 ∧
              (levelWriteF 3 "behavioral" now a).level = t
            have : a.level = 2 := hlev
            constructor
            · show 3 = a.level + 1
              omega
            · show 3 = t
              exact hx.2
          · exact absurd hid hno
  | depin x prov pda device hash sig now =>
    rcases depinRoute_cases s x prov pda device hash sig now with
      ⟨hst, hres⟩ | ⟨a0, d, hg0, hrev, hlev, hdev, heq⟩
    · refine ⟨a, ?_, le_refl _, fun t ht hfo => ?_⟩
      · show getAgent (depinRoute s x prov pda device hash sig now).1 id = some a
        rw [hst]
        exact h
      · have hfo' : isFreshOk (depinRoute s x prov pda device hash sig now).2 = some t := hfo
        exact Option.noConfusion (hres.symm.trans hfo')
    · have hmap : getAgent (applyOp s (Op.depin x prov pda device hash sig now)).1 id =
          (getAgent s id).map
            (fun b => if b.id = x then levelWriteF 4 "hardware" now b else b) := by
        show getAgent (depinRoute s x prov pda device hash sig now).1 id = _
        rw [congrArg Prod.fst heq]
        exact getAgent_depinSuccessState s x d hash sig now id
      obtain ⟨a', ha', hcase⟩ := agent_step_of_mapUpdate _ hmap h
      have haz : a = a0 ∨ ¬ id = x := by
        by_cases hid : id = x
        · left
          rw [hid] at h
          exact some_eq_some_agent (h.symm.trans hg0)
        · right
          exact hid
      refine ⟨a', ha', ?_, ?_⟩
      · rcases hcase with ⟨_, rfl⟩ | ⟨hid, rfl⟩
        · exact le_refl _
        · rcases haz with rfl | hno
          · show a.level ≤ 4
            omega
          · exact absurd hid hno
      · intro t ht _
        have hx : x = id ∧ 4 = t := by simpa [transitionTarget] using ht
        rcases hcase with ⟨hid, rfl⟩ | ⟨hid, rfl⟩
        · exact absurd hx.1.symm hid
        · rcases haz with rfl | hno
          · show (levelWriteF 4 "hardware" now a).level = a.level + 1 ∧
              (levelWriteF 4 "hardware" now a).level = t
            have : a.level = 3 := hlev
            constructor
            · show 4 = a.level + 1
              omega
            · show 4 = t
              exact hx.2
          · exact absurd hid hno
  | mobileChallengeReq x nonce now =>
    refine ⟨a, ?_, le_refl _, fun t ht => by simp [transitionTarget] at ht⟩
    show getAgent (mobileChallengeRoute s x nonce now).1 id = some a
    rw [getAgent_eq_of_agents_eq (mobileChallengeRoute_frame s x nonce now).1 id]
    exact h
  | mobile x cr pk pkOk sl sv sig now =>
    rcases mobileRoute_cases s x cr pk pkOk sl sv sig now with
      ⟨hag, _, _, hres⟩ | ⟨a0, hg0, hrev, hlev, hvc, heq⟩
    · refine ⟨a, ?_, le_refl _, fun t ht hfo => ?_⟩
      · show getAgent (mobileRoute s x cr pk pkOk sl sv sig now).1 id = some a
        rw [getAgent_eq_of_agents_eq hag id]
        exact h
      · have hfo' : isFreshOk (mobileRoute s x cr pk pkOk sl sv sig now).2 = some t := hfo
        exact Option.noConfusion (hres.symm.trans hfo')
    · have hmap : getAgent (applyOp s (Op.mobile x cr pk pkOk sl sv sig now)).1 id =
          (getAgent s id).map
            (fun b => if b.id = x then levelWriteF 5 "mobile" now b else b) := by
        show getAgent (mobileRoute s x cr pk pkOk sl sv sig now).1 id = _
        rw [congrArg Prod.fst heq]
        rw [getAgent_mobileSuccessState]
      obtain ⟨a', ha', hcase⟩ := agent_step_of_mapUpdate _ hmap h
      have haz : a = a0 ∨ ¬ id = x := by
        by_cases hid : id = x
        · left
          rw [hid] at h
          exact some_eq_some_agent (h.symm.trans hg0)
        · right
          exact hid
      refine ⟨a', ha', ?_, ?_⟩
      · rcases hcase with ⟨_, rfl⟩ | ⟨hid, rfl⟩
        · exact le_refl _
        · rcases haz with rfl | hno
          · show a.level ≤ 5
            omega
          · exact absurd hid hno
      · intro t ht _
        have hx : x = id ∧ 5 = t := by simpa [transitionTarget] using ht
        rcases hcase with ⟨hid, rfl⟩ | ⟨hid, rfl⟩
        · exact absurd hx.1.symm hid
        · rcases haz with rfl | hno
          · show (levelWriteF 5 "mobile" now a).level = a.level + 1 ∧
              (levelWriteF 5 "mobile" now a).level = t
            have : a.level = 4 := hlev
            constructor
            · show 5 = a.level + 1
              omega
            · show 5 = t
              exact hx.2
          · exact absurd hid hno

theorem applyOp_level_run (ops : List Op) (s : DBState) (id : String) (a : Agent)
    (h : getAgent s id = some a) :
    ∃ a', getAgent (ops.foldl (fun st op => (applyOp st op).1) s) id = some a' ∧
      a.level ≤ a'.level := by
  induction ops generalizing s a with
  | nil => exact ⟨a, h, le_refl _⟩
  | cons op rest ih =>
    obtain ⟨a1, h1, hle1, _⟩ := applyOp_level_step s op id a h
    obtain ⟨a2, h2, hle2⟩ := ih (applyOp s op).1 a1 h1
    exact ⟨a2, by simpa using h2, le_trans hle1 hle2⟩

/-- C1: an agent's stored level never decreases under any core operation
or any sequence of them, and a fresh (non-idempotent) success of a
transition targeting the agent sets the level to exactly the current level
plus one (which is the transition's target level). -/
theorem trustLevel_monotone :
    (∀ (s : DBState) (op : Op) (id : String) (a : Agent), getAgent s id = some a →
      ∃ a', getAgent (applyOp s op).1 id = some a' ∧ a.level ≤ a'.level ∧
        (∀ t, transitionTarget op = some (id, t) → isFreshOk (applyOp s op).2 = some t →
          a'.level = a.level + 1 ∧ a'.level = t)) ∧
    (∀ (ops : List Op) (s : DBState) (id : String) (a : Agent), getAgent s id = some a →
      ∃ a', getAgent (ops.foldl (fun st op => (applyOp st op).1) s) id = some a' ∧
        a.level ≤ a'.level) :=
  ⟨applyOp_level_step, applyOp_level_run⟩

/-- Witness agent and state for C1. -/
def agentW1 : Agent :=
  { id := "agent-001", level := 0, levelLabel := "registered", challengeCode := some "MOLT-VERIFY-00ff00ff-1700000000" }

def stateW1 : DBState := { agents := [agentW1] }

theorem trustLevel_monotone_witness :
    (∃ a', getAgent (applyOp stateW1
        (Op.confirm "agent-001" (Except.ok true) "tok" none 1000)).1 "agent-001" = some a' ∧
      agentW1.level ≤ a'.level ∧
      (∀ t, transitionTarget (Op.confirm "agent-001" (Except.ok true) "tok" none 1000) =
          some ("agent-001", t) →
        isFreshOk (applyOp stateW1
          (Op.confirm "agent-001" (Except.ok true) "tok" none 1000)).2 = some t →
        a'.level = agentW1.level + 1 ∧ a'.level = t)) ∧
    (∃ a', getAgent ([Op.confirm "agent-001" (Except.ok true) "tok" none 1000].foldl
        (fun st op => (applyOp st op).1) stateW1) "agent-001" = some a' ∧
      agentW1.level ≤ a'.level) :=
  ⟨trustLevel_monotone.1 stateW1 _ "agent-001" agentW1 (by decide),
   trustLevel_monotone.2 _ stateW1 "agent-001" agentW1 (by decide)⟩

/-! ## C2 and C7: idempotent re-invocation and revocation -/

/-- The response of each transition's idempotent branch (the handler's
"already at or past the target" early return). -/
def idempotentResponse (op : Op) (a : Agent) : RouteResult :=
  match op with
  | .confirm .. =>
    .ok a.level (canonicalLabel a.level) (some "Agent already confirmed at L1 or higher")
  | .verify .. =>
    .ok a.level (canonicalLabel a.level) (some "Agent already verified at L2")
  | .behavioral .. =>
    .ok a.level (canonicalLabel a.level) (some "Agent already at L3 or higher")
  | .depin .. =>
    .ok a.level (canonicalLabel a.level) (some "Agent already at L4 or higher")
  | .mobile .. => .ok 5 "mobile" (some "Agent already at L5 (mobile)")
  | _ => .badRequest ""

/-- C2: re-invoking a transition on a non-revoked agent already at or past
the target level returns the idempotent success response reporting the
current state and leaves the entire store (agent row, extended-verification
row, signals, audit log, pending anchors, challenge store) unchanged; since
the verification and anchor oracles are universally quantified and absent
from the conclusion, no re-verification is performed and no signal or
anchor side effect is emitted. -/
theorem idempotent_reinvoke_frame (s : DBState) (op : Op) (id : String) (t : Nat)
    (a : Agent) (htar : transitionTarget op = some (id, t)) (hval : validInputs op)
    (h : getAgent s id = some a) (hrev : a.revoked = false) (hlev : t ≤ a.level) :
    applyOp s op = (s, idempotentResponse op a) := by
  cases op with
  | register input => simp [transitionTarget] at htar
  | mobileChallengeReq x nonce now => simp [transitionTarget] at htar
  | confirm x fr tk sig now =>
    have hx : x = id ∧ 1 = t := by simpa [transitionTarget] using htar
    obtain ⟨hx1, hx2⟩ := hx
    subst hx1
    subst hx2
    have hv : ¬ x = "" := hval
    show confirmRoute s x fr tk sig now = (s, _)
    unfold confirmRoute
    rw [if_neg hv, h]
    simp [hrev, hlev, idempotentResponse]
  | verify x api code aOk cOk wk cu sig now =>
    have hx : x = id ∧ 2 = t := by simpa [transitionTarget] using htar
    obtain ⟨hx1, hx2⟩ := hx
    subst hx1
    subst hx2
    obtain ⟨hv1, hv2, hv3⟩ : ¬ x = "" ∧ ¬ api = "" ∧ ¬ code = "" := hval
    have hnl : ¬ a.level < 1 := by omega
    show verifyRoute s x api code aOk cOk wk cu sig now = (s, _)
    unfold verifyRoute
    rw [if_neg hv1, if_neg hv2, if_neg hv3, h]
    simp [hrev, hnl, hlev, idempotentResponse]
  | behavioral x fp sig now =>
    have hx : x = id ∧ 3 = t := by simpa [transitionTarget] using htar
    obtain ⟨hx1, hx2⟩ := hx
    subst hx1
    subst hx2
    have hv : ¬ x = "" := hval
    have hnl : ¬ a.level < 2 := by omega
    show behavioralRoute s x fp sig now = (s, _)
    unfold behavioralRoute
    rw [if_neg hv, h]
    simp [hrev, hnl, hlev, idempotentResponse]
  | depin x prov pda device hash sig now =>
    have hx : x = id ∧ 4 = t := by simpa [transitionTarget] using htar
    obtain ⟨hx1, hx2⟩ := hx
    subst hx1
    subst hx2
    obtain ⟨hv1, hv2, hv3, hv4⟩ :
      ¬ x = "" ∧ ¬ prov = "" ∧ ¬ pda = "" ∧ prov ∈ validProviders := hval
    have hnl : ¬ a.level < 3 := by omega
    show depinRoute s x prov pda device hash sig now = (s, _)
    unfold depinRoute
    rw [if_neg hv1, if_neg hv2, if_neg hv3, if_neg (not_not_intro hv4), h]
    simp [hrev, hnl, hlev, idempotentResponse]
  | mobile x cr pk pkOk sl sv sig now =>
    have hx : x = id ∧ 5 = t := by simpa [transitionTarget] using htar
    obtain ⟨hx1, hx2⟩ := hx
    subst hx1
    subst hx2
    obtain ⟨hv1, hv2, hv3⟩ : ¬ x = "" ∧ ¬ cr = "" ∧ ¬ pk = "" := hval
    have hnl : ¬ a.level < 4 := by omega
    show mobileRoute s x cr pk pkOk sl sv sig now = (s, _)
    unfold mobileRoute
    rw [if_neg hv1, if_neg hv2, if_neg hv3, h]
    simp [hrev, hnl, hlev, idempotentResponse]

/-- Witness agent and state for C2: an agent already at L1 re-invoking
confirm. -/
def agentW2 : Agent :=
  { id := "agent-002", level := 1, levelLabel := "confirmed", challengeToken := some "tok" }

def stateW2 : DBState := { agents := [agentW2] }

theorem idempotent_reinvoke_frame_witness :
    applyOp stateW2 (Op.confirm "agent-002" (Except.ok false) "newtok" (some "sig") 5000) =
      (stateW2, idempotentResponse
        (Op.confirm "agent-002" (Except.ok false) "newtok" (some "sig") 5000) agentW2) :=
  idempotent_reinvoke_frame stateW2 _ "agent-002" 1 agentW2
    (by decide) (show ¬ "agent-002" = "" by decide) (by decide) (by decide) (by decide)

/-- C7: every transition on a revoked agent is rejected with the revocation
error and no state is mutated, whatever the agent's current level. -/
theorem revoked_rejects_transitions (s : DBState) (op : Op) (id : String) (t : Nat)
    (a : Agent) (htar : transitionTarget op = some (id, t)) (hval : validInputs op)
    (h : getAgent s id = some a) (hrev : a.revoked = true) :
    applyOp s op = (s, .forbidden "Agent verification has been revoked") := by
  cases op with
  | register input => simp [transitionTarget] at htar
  | mobileChallengeReq x nonce now => simp [transitionTarget] at htar
  | confirm x fr tk sig now =>
    have hx : x = id := (by simpa [transitionTarget] using htar : x = id ∧ 1 = t).1
    subst hx
    have hv : ¬ x = "" := hval
    show confirmRoute s x fr tk sig now = (s, _)
    unfold confirmRoute
    rw [if_neg hv, h]
    simp [hrev]
  | verify x api code aOk cOk wk cu sig now =>
    have hx : x = id := (by simpa [transitionTarget] using htar : x = id ∧ 2 = t).1
    subst hx
    obtain ⟨hv1, hv2, hv3⟩ : ¬ x = "" ∧ ¬ api = "" ∧ ¬ code = "" := hval
    show verifyRoute s x api code aOk cOk wk cu sig now = (s, _)
    unfold verifyRoute
    rw [if_neg hv1, if_neg hv2, if_neg hv3, h]
    simp [hrev]
  | behavioral x fp sig now =>
    have hx : x = id := (by simpa [transitionTarget] using htar : x = id ∧ 3 = t).1
    subst hx
    have hv : ¬ x = "" := hval
    show behavioralRoute s x fp sig now = (s, _)
    unfold behavioralRoute
    rw [if_neg hv, h]
    simp [hrev]
  | depin x prov pda device hash sig now =>
    have hx : x = id := (by simpa [transitionTarget] using htar : x = id ∧ 4 = t).1
    subst hx
    obtain ⟨hv1, hv2, hv3, hv4⟩ :
      ¬ x = "" ∧ ¬ prov = "" ∧ ¬ pda = "" ∧ prov ∈ validProviders := hval
    show depinRoute s x prov pda device hash sig now = (s, _)
    unfold depinRoute
    rw [if_neg hv1, if_neg hv2, if_neg hv3, if_neg (not_not_intro hv4), h]
    simp [hrev]
  | mobile x cr pk pkOk sl sv sig now =>
    have hx : x = id := (by simpa [transitionTarget] using htar : x = id ∧ 5 = t).1
    subst hx
    obtain ⟨hv1, hv2, hv3⟩ : ¬ x = "" ∧ ¬ cr = "" ∧ ¬ pk = "" := hval
    show mobileRoute s x cr pk pkOk sl sv sig now = (s, _)
    unfold mobileRoute
    rw [if_neg hv1, if_neg hv2, if_neg hv3, h]
    simp [hrev]

/-- Witness agent and state for C7: a revoked agent at L5 hitting the
mobile transition. -/
def agentW7 : Agent :=
  { id := "agent-007", level := 5, levelLabel := "mobile", revoked := true }

def stateW7 : DBState := { agents := [agentW7] }

theorem revoked_rejects_transitions_witness :
    applyOp stateW7 (Op.mobile "agent-007" "c3In" "pubkey" true 64 true none 9000) =
      (stateW7, .forbidden "Agent verification has been revoked") :=
  revoked_rejects_transitions stateW7 _ "agent-007" 5 agentW7
    (by decide) (show ¬ "agent-007" = "" ∧ ¬ "c3In" = "" ∧ ¬ "pubkey" = "" by decide)
    (by decide) (by decide)

/-! ## C3: what reaches the pending-anchor queue -/

theorem pending_foldl_addSybil (l : List Agent) (st0 : DBState) (api : String) (now : Nat) :
    (l.foldl (fun st b => addSybilSignal st b.id "endpoint_cluster" api now) st0).pendingAnchors =
      st0.pendingAnchors := by
  induction l generalizing st0 with
  | nil => rfl
  | cons hd tl ih =>
    rw [List.foldl_cons, ih]
    rfl

theorem nextId_foldl_addSybil (l : List Agent) (st0 : DBState) (api : String) (now : Nat) :
    (l.foldl (fun st b => addSybilSignal st b.id "endpoint_cluster" api now) st0).nextAnchorId =
      st0.nextAnchorId := by
  induction l generalizing st0 with
  | nil => rfl
  | cons hd tl ih =>
    rw [List.foldl_cons, ih]
    rfl

theorem pendingAnchors_upsertExt (s : DBState) (aid : String)
    (f : ExtVerification → ExtVerification) (fresh : ExtVerification) :
    (upsertExt s aid f fresh).pendingAnchors = s.pendingAnchors := by
  unfold upsertExt
  split <;> rfl

theorem nextAnchorId_upsertExt (s : DBState) (aid : String)
    (f : ExtVerification → ExtVerification) (fresh : ExtVerification) :
    (upsertExt s aid f fresh).nextAnchorId = s.nextAnchorId := by
  unfold upsertExt
  split <;> rfl

/-- The pending-anchor entry created by a failed anchor dispatch. -/
def freshPending (s : DBState) (aid memo : String) (now : Nat) : PendingAnchor :=
  { id := s.nextAnchorId, agentId := aid, memo := memo, createdAt := now, retries := 0 }

theorem pending_applyAnchorResult_none {s' s : DBState} (aid memo : String) (now : Nat)
    (hp : s'.pendingAnchors = s.pendingAnchors) (hn : s'.nextAnchorId = s.nextAnchorId) :
    (applyAnchorResult s' aid memo none now).pendingAnchors =
      s.pendingAnchors ++ [freshPending s aid memo now] := by
  show s'.pendingAnchors ++ _ = _
  rw [hp, hn]
  rfl

theorem pending_updateAgent (st : DBState) (x : String) (f : Agent → Agent) :
    (updateAgent st x f).pendingAnchors = st.pendingAnchors := rfl

theorem nextId_updateAgent (st : DBState) (x : String) (f : Agent → Agent) :
    (updateAgent st x f).nextAnchorId = st.nextAnchorId := rfl

theorem pending_addAuditLog (st : DBState) (aid act : String) (ih : Option String)
    (now : Nat) : (addAuditLog st aid act ih now).pendingAnchors = st.pendingAnchors := rfl

theorem nextId_addAuditLog (st : DBState) (aid act : String) (ih : Option String)
    (now : Nat) : (addAuditLog st aid act ih now).nextAnchorId = st.nextAnchorId := rfl

theorem pending_sybilBlock (s2 : DBState) (id api : String) (now : Nat) (l : List Agent) :
    (if ¬ l = [] then
       l.foldl (fun st b => addSybilSignal st b.id "endpoint_cluster" api now)
         (addSybilSignal s2 id "endpoint_cluster" api now)
     else s2).pendingAnchors = s2.pendingAnchors := by
  split
  · rw [pending_foldl_addSybil]
    rfl
  · rfl

theorem nextId_sybilBlock (s2 : DBState) (id api : String) (now : Nat) (l : List Agent) :
    (if ¬ l = [] then
       l.foldl (fun st b => addSybilSignal st b.id "endpoint_cluster" api now)
         (addSybilSignal s2 id "endpoint_cluster" api now)
     else s2).nextAnchorId = s2.nextAnchorId := by
  split
  · rw [nextId_foldl_addSybil]
    rfl
  · rfl

theorem pending_setBehavioral (s : DBState) (id fp : String) (u : ℚ) (ft : String)
    (now : Nat) : (setBehavioral s id fp u ft now).pendingAnchors = s.pendingAnchors := by
  simp only [setBehavioral]
  rw [pending_updateAgent, pendingAnchors_upsertExt]

theorem nextId_setBehavioral (s : DBState) (id fp : String) (u : ℚ) (ft : String)
    (now : Nat) : (setBehavioral s id fp u ft now).nextAnchorId = s.nextAnchorId := by
  simp only [setBehavioral]
  rw [nextId_updateAgent, nextAnchorId_upsertExt]

theorem pending_setHardware (s : DBState) (id prov pda bh : String) (sig : Option String)
    (now : Nat) : (setHardware s id prov pda bh sig now).pendingAnchors = s.pendingAnchors := by
  simp only [setHardware]
  rw [pending_updateAgent, pendingAnchors_upsertExt]

theorem pending_setMobile (s : DBState) (id pk : String) (sig : Option String)
    (now : Nat) : (setMobile s id pk sig now).pendingAnchors = s.pendingAnchors := by
  simp only [setMobile]
  rw [pending_updateAgent, pendingAnchors_upsertExt]

theorem pending_confirmSuccessState (s : DBState) (id tk : String) (now : Nat) :
    (confirmSuccessState s id tk none now).pendingAnchors =
      s.pendingAnchors ++ [freshPending s id (buildMemo id 1 "confirmed" (now / 1000)) now] := by
  unfold confirmSuccessState
  exact pending_applyAnchorResult_none _ _ _ rfl rfl

theorem pending_verifySuccessState (s : DBState) (id api code : String) (now : Nat) :
    (verifySuccessState s id api code none now).pendingAnchors =
      s.pendingAnchors ++ [freshPending s id (buildMemo id 2 "verified" (now / 1000)) now] := by
  unfold verifySuccessState
  apply pending_applyAnchorResult_none
  · exact pending_sybilBlock _ id api now _
  · exact nextId_sybilBlock _ id api now _

theorem pending_behavioralSuccessState (s : DBState) (id : String) (r : FPResult)
    (now : Nat) :
    (behavioralSuccessState s id r none now).pendingAnchors =
      s.pendingAnchors ++ [freshPending s id (buildMemo id 3 "behavioral" (now / 1000)) now] := by
  unfold behavioralSuccessState
  apply pending_applyAnchorResult_none
  · rw [pending_addAuditLog, pending_setBehavioral]
    split <;> rfl
  · rw [nextId_addAuditLog, nextId_setBehavioral]
    split <;> rfl

theorem pending_depinSuccessState (s : DBState) (id : String) (d : DeviceRead)
    (hash : String → String) (sig : Option String) (now : Nat) :
    (depinSuccessState s id d hash sig now).pendingAnchors = s.pendingAnchors := by
  unfold depinSuccessState
  rw [pending_addAuditLog, pending_setHardware]

theorem pending_mobileSuccessState (s : DBState) (id pk : String)
    (store1 : ChallengeStore) (sig : Option String) (now : Nat) :
    (mobileSuccessState s id pk store1 sig now).pendingAnchors = s.pendingAnchors := by
  unfold mobileSuccessState
  rw [pending_addAuditLog, pending_setMobile]

/-- C3 (counterexample to the claim as stated): a depin (L4) transition
whose anchor dispatch failed (oracle `none`): the transition succeeds fresh
to level 4, yet the pending-anchor queue stays empty — no memo is
persisted, contradicting the claim for the depin transition. -/
def agentW3 : Agent := { id := "agent-003", level := 3, levelLabel := "behavioral" }

def stateW3 : DBState := { agents := [agentW3] }

def deviceW3 : DeviceRead :=
  { provider := "mock", programId := "mock-depin-program", devicePDA := "pda1",
    accountData := "mockdata", isReal := false, notes := "MOCK device" }

def opW3 : Op := Op.depin "agent-003" "mock" "pda1" (Except.ok deviceW3) (fun _ => "hh") none 7000

theorem anchor_queue_depin_counterexample :
    isFreshOk (applyOp stateW3 opW3).2 = some 4 ∧
    (applyOp stateW3 opW3).1.pendingAnchors = [] := by
  constructor
  · decide
  · decide

/-- C3 as amended: on a fresh transition success with a failed anchor
dispatch, the confirm / verify / behavioral handlers (targets L1–L3)
persist the canonical memo in the pending-anchor queue with retry counter
0, while the depin and mobile handlers (targets L4–L5) never enqueue a
pending anchor — their anchor outcome is stored (possibly null) on the
extended-verification row instead. -/
theorem anchor_failure_queue_amended (s : DBState) (op : Op) (id : String) (t : Nat)
    (htar : transitionTarget op = some (id, t)) (hanc : anchorOracle op = some none)
    (hok : isFreshOk (applyOp s op).2 = some t) :
    (t ≤ 3 → (applyOp s op).1.pendingAnchors =
      s.pendingAnchors ++
        [freshPending s id (buildMemo id t (canonicalLabel t) (opNow op / 1000)) (opNow op)]) ∧
    (4 ≤ t → (applyOp s op).1.pendingAnchors = s.pendingAnchors) := by
  cases op with
  | register input => simp [transitionTarget] at htar
  | mobileChallengeReq x nonce now => simp [transitionTarget] at htar
  | confirm x fr tk sig now =>
    have hx : x = id ∧ 1 = t := by simpa [transitionTarget] using htar
    obtain ⟨hx1, hx2⟩ := hx
    subst hx1
    subst hx2
    have hsig : sig = none := by simpa [anchorOracle] using hanc
    subst hsig
    rcases confirmRoute_cases s x fr tk none now with ⟨hst, hres⟩ | ⟨a0, hg0, hrev, hlev, heq⟩
    · have hok' : isFreshOk (confirmRoute s x fr tk none now).2 = some 1 := hok
      exact Option.noConfusion (hres.symm.trans hok')
    · constructor
      · intro _
        show (confirmRoute s x fr tk none now).1.pendingAnchors = _
        rw [congrArg Prod.fst heq]
        exact pending_confirmSuccessState s x tk now
      · intro hge
        omega
  | verify x api code aOk cOk wk cu sig now =>
    have hx : x = id ∧ 2 = t := by simpa [transitionTarget] using htar
    obtain ⟨hx1, hx2⟩ := hx
    subst hx1
    subst hx2
    have hsig : sig = none := by simpa [anchorOracle] using hanc
    subst hsig
    rcases verifyRoute_cases s x api code aOk cOk wk cu none now with
      ⟨hst, hres⟩ | ⟨a0, hg0, hrev, hlev, heq⟩
    · have hok' : isFreshOk (verifyRoute s x api code aOk cOk wk cu none now).2 = some 2 := hok
      exact Option.noConfusion (hres.symm.trans hok')
    · constructor
      · intro _
        show (verifyRoute s x api code aOk cOk wk cu none now).1.pendingAnchors = _
        rw [congrArg Prod.fst heq]
        exact pending_verifySuccessState s x api code now
      · intro hge
        omega
  | behavioral x fp sig now =>
    have hx : x = id ∧ 3 = t := by simpa [transitionTarget] using htar
    obtain ⟨hx1, hx2⟩ := hx
    subst hx1
    subst hx2
    have hsig : sig = none := by simpa [anchorOracle] using hanc
    subst hsig
    rcases behavioralRoute_cases s x fp none now with
      ⟨hst, hres⟩ | ⟨a0, r, hg0, hrev, hlev, hfp, heq⟩
    · have hok' : isFreshOk (behavioralRoute s x fp none now).2 = some 3 := hok
      exact Option.noConfusion (hres.symm.trans hok')
    · constructor
      · intro _
        show (behavioralRoute s x fp none now).1.pendingAnchors = _
        rw [congrArg Prod.fst heq]
        exact pending_behavioralSuccessState s x r now
      · intro hge
        omega
  | depin x prov pda device hash sig now =>
    have hx : x = id ∧ 4 = t := by simpa [transitionTarget] using htar
    obtain ⟨hx1, hx2⟩ := hx
    subst hx1
    subst hx2
    rcases depinRoute_cases s x prov pda device hash sig now with
      ⟨hst, hres⟩ | ⟨a0, d, hg0, hrev, hlev, hdev, heq⟩
    · have hok' : isFreshOk (depinRoute s x prov pda device hash sig now).2 = some 4 := hok
      exact Option.noConfusion (hres.symm.trans hok')
    · constructor
      · intro hle
        omega
      · intro _
        show (depinRoute s x prov pda device hash sig now).1.pendingAnchors = _
        rw [congrArg Prod.fst heq]
        exact pending_depinSuccessState s x d hash sig now
  | mobile x cr pk pkOk sl sv sig now =>
    have hx : x = id ∧ 5 = t := by simpa [transitionTarget] using htar
    obtain ⟨hx1, hx2⟩ := hx
    subst hx1
    subst hx2
    rcases mobileRoute_cases s x cr pk pkOk sl sv sig now with
      ⟨_, _, hpend, hres⟩ | ⟨a0, hg0, hrev, hlev, hvc, heq⟩
    · have hok' : isFreshOk (mobileRoute s x cr pk pkOk sl sv sig now).2 = some 5 := hok
      exact Option.noConfusion (hres.symm.trans hok')
    · constructor
      · intro hle
        omega
      · intro _
        show (mobileRoute s x cr pk pkOk sl sv sig now).1.pendingAnchors = _
        rw [congrArg Prod.fst heq]
        exact pending_mobileSuccessState s x pk _ sig now

/-- Witness instance of the amended C3: a fresh confirm success with a
failed anchor dispatch enqueues exactly the canonical memo with retries 0. -/
theorem anchor_failure_queue_amended_witness :
    (1 ≤ 3 → (applyOp stateW1 (Op.confirm "agent-001" (Except.ok true) "tok" none 1000)).1.pendingAnchors =
      stateW1.pendingAnchors ++
        [freshPending stateW1 "agent-001" (buildMemo "agent-001" 1 (canonicalLabel 1) (1000 / 1000)) 1000]) ∧
    (4 ≤ 1 → (applyOp stateW1 (Op.confirm "agent-001" (Except.ok true) "tok" none 1000)).1.pendingAnchors =
      stateW1.pendingAnchors) :=
  anchor_failure_queue_amended stateW1 _ "agent-001" 1 (by decide) (by decide) (by decide)

/-! ## C9: which transitions refresh the 30-day expiry -/

/-- C9 (counterexample to the claim as stated): a fresh depin (L4)
transition at time 99999 on an agent whose stored expiry is 1111: the
stored expiry is untouched, not reset to the transition time plus 30
days. -/
def agentW9 : Agent :=
  { id := "agent-009", level := 3, levelLabel := "behavioral", expiresAt := some 1111 }

def stateW9 : DBState := { agents := [agentW9] }

def deviceW9 : DeviceRead :=
  { provider := "mock", programId := "mock-depin-program", devicePDA := "pda9",
    accountData := "mockdata", isReal := false, notes := "MOCK device" }

def opW9 : Op := Op.depin "agent-009" "mock" "pda9" (Except.ok deviceW9) (fun _ => "hh") none 99999

theorem expiry_depin_counterexample :
    isFreshOk (applyOp stateW9 opW9).2 = some 4 ∧
    ∃ a', getAgent (applyOp stateW9 opW9).1 "agent-009" = some a' ∧
      a'.expiresAt = some 1111 ∧ ¬ a'.expiresAt = some (99999 + thirtyDaysMs) := by
  refine ⟨by decide,
    { agentW9 with level := 4, levelLabel := "hardware", updatedAt := some 99999 },
    by decide, by decide, by decide⟩

/-- C9 as amended: registration and the confirm / verify transitions
(L0–L2) set the stored expiry to the transition time plus 30 days, while
the behavioral / depin / mobile transitions (L3–L5) leave the stored
expiry unchanged. -/
theorem expiry_refresh_amended :
    (∀ (s : DBState) (op : Op) (id : String) (t : Nat) (a : Agent),
      transitionTarget op = some (id, t) → getAgent s id = some a →
      isFreshOk (applyOp s op).2 = some t →
      ∃ a', getAgent (applyOp s op).1 id = some a' ∧
        (t ≤ 2 → a'.expiresAt = some (opNow op + thirtyDaysMs)) ∧
        (3 ≤ t → a'.expiresAt = a.expiresAt)) ∧
    (∀ (s : DBState) (input : RegisterInput) (l : Nat) (lb cc : String),
      (registerRoute s input).2 = .created l lb cc →
      ∃ a', getAgent (registerRoute s input).1 input.agentId = some a' ∧
        a'.expiresAt = some (input.now + thirtyDaysMs)) := by
  constructor
  · intro s op id t a htar h hok
    cases op with
    | register input => simp [transitionTarget] at htar
    | mobileChallengeReq x nonce now => simp [transitionTarget] at htar
    | confirm x fr tk sig now =>
      have hx : x = id ∧ 1 = t := by simpa [transitionTarget] using htar
      obtain ⟨hx1, hx2⟩ := hx
      subst hx1
      subst hx2
      rcases confirmRoute_cases s x fr tk sig now with ⟨hst, hres⟩ | ⟨a0, hg0, hrev, hlev, heq⟩
      · have hok' : isFreshOk (confirmRoute s x fr tk sig now).2 = some 1 := hok
        exact Option.noConfusion (hres.symm.trans hok')
      · refine ⟨anchorAdjust sig now (confirmAgentF tk now a), ?_, ?_, ?_⟩
        · show getAgent (confirmRoute s x fr tk sig now).1 x = _
          rw [congrArg Prod.fst heq, getAgent_confirmSuccessState, h]
          simp [getAgent_id h]
        · intro _
          rw [expiresAt_anchorAdjust]
          rfl
        · intro hge
          omega
    | verify x api code aOk cOk wk cu sig now =>
      have hx : x = id ∧ 2 = t := by simpa [transitionTarget] using htar
      obtain ⟨hx1, hx2⟩ := hx
      subst hx1
      subst hx2
      rcases verifyRoute_cases s x api code aOk cOk wk cu sig now with
        ⟨hst, hres⟩ | ⟨a0, hg0, hrev, hlev, heq⟩
      · have hok' : isFreshOk (verifyRoute s x api code aOk cOk wk cu sig now).2 = some 2 := hok
        exact Option.noConfusion (hres.symm.trans hok')
      · refine ⟨anchorAdjust sig now (verifyAgentF api code none now a), ?_, ?_, ?_⟩
        · show getAgent (verifyRoute s x api code aOk cOk wk cu sig now).1 x = _
          rw [congrArg Prod.fst heq, getAgent_verifySuccessState, h]
          simp [getAgent_id h]
        · intro _
          rw [expiresAt_anchorAdjust]
          rfl
        · intro hge
          omega
    | behavioral x fp sig now =>
      have hx : x = id ∧ 3 = t := by simpa [transitionTarget] using htar
      obtain ⟨hx1, hx2⟩ := hx
      subst hx1
      subst hx2
      rcases behavioralRoute_cases s x fp sig now with
        ⟨hst, hres⟩ | ⟨a0, r, hg0, hrev, hlev, hfp, heq⟩
      · have hok' : isFreshOk (behavioralRoute s x fp sig now).2 = some 3 := hok
        exact Option.noConfusion (hres.symm.trans hok')
      · refine ⟨anchorAdjust sig now (levelWriteF 3 "behavioral" now a), ?_, ?_, ?_⟩
        · show getAgent (behavioralRoute s x fp sig now).1 x = _
          rw [congrArg Prod.fst heq, getAgent_behavioralSuccessState, h]
          simp [getAgent_id h]
        · intro hle
          omega
        · intro _
          rw [expiresAt_anchorAdjust]
          rfl
    | depin x prov pda device hash sig now =>
      have hx : x = id ∧ 4 = t := by simpa [transitionTarget] using htar
      obtain ⟨hx1, hx2⟩ := hx
      subst hx1
      subst hx2
      rcases depinRoute_cases s x prov pda device hash sig now with
        ⟨hst, hres⟩ | ⟨a0, d, hg0, hrev, hlev, hdev, heq⟩
      · have hok' : isFreshOk (depinRoute s x prov pda device hash sig now).2 = some 4 := hok
        exact Option.noConfusion (hres.symm.trans hok')
      · refine ⟨levelWriteF 4 "hardware" now a, ?_, ?_, ?_⟩
        · show getAgent (depinRoute s x prov pda device hash sig now).1 x = _
          rw [congrArg Prod.fst heq, getAgent_depinSuccessState, h]
          simp [getAgent_id h]
        · intro hle
          omega
        · intro _
          rfl
    | mobile x cr pk pkOk sl sv sig now =>
      have hx : x = id ∧ 5 = t := by simpa [transitionTarget] using htar
      obtain ⟨hx1, hx2⟩ := hx
      subst hx1
      subst hx2
      rcases mobileRoute_cases s x cr pk pkOk sl sv sig now with
        ⟨_, _, _, hres⟩ | ⟨a0, hg0, hrev, hlev, hvc, heq⟩
      · have hok' : isFreshOk (mobileRoute s x cr pk pkOk sl sv sig now).2 = some 5 := hok
        exact Option.noConfusion (hres.symm.trans hok')
      · refine ⟨levelWriteF 5 "mobile" now a, ?_, ?_, ?_⟩
        · show getAgent (mobileRoute s x cr pk pkOk sl sv sig now).1 x = _
          rw [congrArg Prod.fst heq, getAgent_mobileSuccessState, h]
          simp [getAgent_id h]
        · intro hle
          omega
        · intro _
          rfl
  · intro s input l lb cc hres
    rcases registerRoute_cases s input with ⟨_, hno⟩ | ⟨hnone, hag, _⟩
    · exact absurd hres (hno l lb cc)
    · refine ⟨freshAgentRow input, ?_, rfl⟩
      unfold getAgent at hnone ⊢
      rw [hag, List.find?_append, hnone]
      simp only [Option.none_or]
      rw [List.find?_cons_of_pos _ (by simp [freshAgentRow])]

/-- Witness instance of the amended C9: a fresh confirm success refreshes
the expiry to now + 30 days, and a register success stamps now + 30 days. -/
theorem expiry_refresh_amended_witness :
    (∃ a', getAgent (applyOp stateW1
        (Op.confirm "agent-001" (Except.ok true) "tok" none 1000)).1 "agent-001" = some a' ∧
      (1 ≤ 2 → a'.expiresAt = some (1000 + thirtyDaysMs)) ∧
      (3 ≤ 1 → a'.expiresAt = agentW1.expiresAt)) :=
  expiry_refresh_amended.1 stateW1 _ "agent-001" 1 agentW1 (by decide) (by decide) (by decide)

/-! ## C6: single-use mobile challenges -/

theorem find?_map_fstPreserving (l : ChallengeStore) (x i : String)
    (g : StoredChallenge → StoredChallenge) :
    (l.map (fun p => if p.1 = x then (p.1, g p.2) else p)).find? (fun p => p.1 = i) =
      (l.find? (fun p => p.1 = i)).map (fun p => if p.1 = x then (p.1, g p.2) else p) := by
  induction l with
  | nil => rfl
  | cons hd tl ih =>
    have hid : (if hd.1 = x then (hd.1, g hd.2) else hd).1 = hd.1 := by
      by_cases hx : hd.1 = x <;> simp [hx]
    simp only [List.map_cons]
    by_cases hi : hd.1 = i
    · rw [List.find?_cons_of_pos _ (by simp only [hid, decide_eq_true_eq]; exact hi),
        List.find?_cons_of_pos _ (by simpa using hi)]
      rfl
    · rw [List.find?_cons_of_neg _ (by simp only [hid, decide_eq_true_eq]; exact hi),
        List.find?_cons_of_neg _ (by simpa using hi), ih]

theorem lookupChallenge_fst {store : ChallengeStore} {i : String} {c : StoredChallenge}
    (h : lookupChallenge store i = some c) :
    ∃ p, store.find? (fun p => p.1 = i) = some p ∧ p.1 = i ∧ p.2 = c := by
  unfold lookupChallenge at h
  cases hf : store.find? (fun p => p.1 = i) with
  | none => rw [hf] at h; simp at h
  | some p =>
    rw [hf] at h
    have h1 := List.find?_some hf
    simp only [decide_eq_true_eq] at h1
    simp only [Option.map_some'] at h
    exact ⟨p, rfl, h1, by injection h⟩

theorem lookupChallenge_setUsed_self {store : ChallengeStore} {x : String}
    {c : StoredChallenge} (h : lookupChallenge store x = some c) :
    lookupChallenge (setChallengeUsed store x) x = some { c with used := true } := by
  obtain ⟨p, hp, hfst, hsnd⟩ := lookupChallenge_fst h
  unfold lookupChallenge setChallengeUsed
  rw [find?_map_fstPreserving store x x (fun c => { c with used := true }), hp]
  simp [hfst, hsnd]

/-- C6: a mobile challenge verifies at most once. Given a pending unused
unexpired challenge, a well-formed valid signature (valid pubkey, 64-byte
signature, passing Ed25519 check) verifies and marks the challenge used;
afterwards no verification attempt for that agent can ever return valid
again — whatever the time or the signature oracles say — and as long as
the challenge is unexpired the failure is exactly the already-used error. -/
theorem mobile_challenge_single_use (store : ChallengeStore) (agentId : String)
    (c : StoredChallenge) (now1 : Nat)
    (hc : lookupChallenge store agentId = some c)
    (hexp : now1 ≤ c.expiresAt) (hused : c.used = false) :
    verifyChallenge store now1 agentId true 64 true = (setChallengeUsed store agentId, .valid) ∧
    (∀ now2 pk sl sv,
      ¬ (verifyChallenge (setChallengeUsed store agentId) now2 agentId pk sl sv).2 = .valid) ∧
    (∀ now2, now2 ≤ c.expiresAt →
      verifyChallenge (setChallengeUsed store agentId) now2 agentId true 64 true =
        (setChallengeUsed store agentId, .invalid "Challenge already used. Request a new one.")) := by
  have hlu := lookupChallenge_setUsed_self hc
  refine ⟨?_, ?_, ?_⟩
  · unfold verifyChallenge
    rw [hc]
    simp [Nat.not_lt.mpr hexp, hused]
  · intro now2 pk sl sv
    unfold verifyChallenge
    rw [hlu]
    by_cases h2 : c.expiresAt < now2 <;> simp [h2]
  · intro now2 h2
    unfold verifyChallenge
    rw [hlu]
    simp [Nat.not_lt.mpr h2]

/-- Concrete challenge for the C6 witness. -/
def chW6 : StoredChallenge := { challenge := "6e6f6e6365", expiresAt := 1000, used := false }

/-- Concrete store for the C6 witness. -/
def storeW6 : ChallengeStore := [("agent-001", chW6)]

theorem mobile_challenge_single_use_witness :
    verifyChallenge storeW6 10 "agent-001" true 64 true =
      (setChallengeUsed storeW6 "agent-001", .valid) ∧
    ¬ (verifyChallenge (setChallengeUsed storeW6 "agent-001") 20 "agent-001" true 64 true).2 = .valid ∧
    verifyChallenge (setChallengeUsed storeW6 "agent-001") 20 "agent-001" true 64 true =
      (setChallengeUsed storeW6 "agent-001", .invalid "Challenge already used. Request a new one.") := by
  have h := mobile_challenge_single_use storeW6 "agent-001" chW6 10
    (by decide) (by decide) (by decide)
  exact ⟨h.1, h.2.1 20 true 64 true, h.2.2 20 (by decide)⟩

/-! ## Similarity-engine lemmas (C4, C5) -/

theorem dot_nil (b : List ℝ) : dot [] b = 0 := rfl

theorem dot_nil_right (a : List ℝ) : dot a [] = 0 := by
  cases a <;> rfl

theorem dot_cons (x y : ℝ) (xs ys : List ℝ) :
    dot (x :: xs) (y :: ys) = x * y + dot xs ys := by
  simp [dot]

theorem normSq_cons (x : ℝ) (xs : List ℝ) : normSq (x :: xs) = x * x + normSq xs := by
  simp [normSq, dot]

theorem normSq_nonneg (a : List ℝ) : 0 ≤ normSq a := by
  induction a with
  | nil => simp [normSq, dot]
  | cons x xs ih =>
    rw [normSq_cons]
    exact add_nonneg (mul_self_nonneg x) ih

theorem dot_nonneg {a b : List ℝ} (ha : ∀ x ∈ a, 0 ≤ x) (hb : ∀ x ∈ b, 0 ≤ x) :
    0 ≤ dot a b := by
  induction a generalizing b with
  | nil => simp [dot_nil]
  | cons x xs ih =>
    cases b with
    | nil => simp [dot_nil_right]
    | cons y ys =>
      rw [dot_cons]
      refine add_nonneg (mul_nonneg (ha x (by simp)) (hb y (by simp))) ?_
      exact ih (fun z hz => ha z (by simp [hz])) (fun z hz => hb z (by simp [hz]))

theorem dot_sq_le (a b : List ℝ) : (dot a b) ^ 2 ≤ normSq a * normSq b := by
  induction a generalizing b with
  | nil =>
    simp only [dot_nil]
    have := mul_nonneg (normSq_nonneg ([] : List ℝ)) (normSq_nonneg b)
    nlinarith
  | cons x xs ih =>
    cases b with
    | nil =>
      simp only [dot_nil_right]
      have := mul_nonneg (normSq_nonneg (x :: xs)) (normSq_nonneg ([] : List ℝ))
      nlinarith
    | cons y ys =>
      have hD := ih ys
      have hA := normSq_nonneg xs
      have hB := normSq_nonneg ys
      rw [dot_cons, normSq_cons, normSq_cons]
      set D := dot xs ys with hDdef
      set A := normSq xs with hAdef
      set B := normSq ys with hBdef
      have habs : |D| ≤ Real.sqrt (A * B) := by
        rw [← Real.sqrt_sq_eq_abs]
        exact Real.sqrt_le_sqrt hD
      have key : 2 * (x * y) * D ≤ x * x * B + A * (y * y) := by
        have h1 : 2 * (x * y) * D ≤ 2 * (|x| * |y|) * |D| := by
          calc 2 * (x * y) * D ≤ |2 * (x * y) * D| := le_abs_self _
            _ = 2 * (|x| * |y|) * |D| := by
                rw [abs_mul, abs_mul, abs_mul, abs_two]
        have h2 : 2 * (|x| * |y|) * |D| ≤ 2 * (|x| * |y|) * Real.sqrt (A * B) := by
          apply mul_le_mul_of_nonneg_left habs
          positivity
        have h3 : 2 * (|x| * |y|) * Real.sqrt (A * B) ≤ x * x * B + A * (y * y) := by
          have h4 := two_mul_le_add_sq (|x| * Real.sqrt B) (|y| * Real.sqrt A)
          have e1 : Real.sqrt A * Real.sqrt B = Real.sqrt (A * B) := (Real.sqrt_mul hA B).symm
          have e2 : (|x| * Real.sqrt B) ^ 2 = x * x * B := by
            rw [mul_pow, sq_abs, Real.sq_sqrt hB]
            ring
          have e3 : (|y| * Real.sqrt A) ^ 2 = A * (y * y) := by
            rw [mul_pow, sq_abs, Real.sq_sqrt hA]
            ring
          calc 2 * (|x| * |y|) * Real.sqrt (A * B)
              = 2 * (|x| * Real.sqrt B) * (|y| * Real.sqrt A) := by
                rw [← e1]
                ring
            _ ≤ (|x| * Real.sqrt B) ^ 2 + (|y| * Real.sqrt A) ^ 2 := h4
            _ = x * x * B + A * (y * y) := by rw [e2, e3]
        linarith
      nlinarith [key, hD]

theorem cos_self {a : List ℝ} (h : ¬ normSq a = 0) : cosineSimilarity a a = 1 := by
  unfold cosineSimilarity
  rw [if_neg (not_not_intro rfl), if_neg (by simpa using h)]
  rw [Real.mul_self_sqrt (normSq_nonneg a)]
  exact div_self h

theorem cosine_mem_unit (a b : List ℝ) (ha : ∀ x ∈ a, 0 ≤ x) (hb : ∀ x ∈ b, 0 ≤ x) :
    0 ≤ cosineSimilarity a b ∧ cosineSimilarity a b ≤ 1 := by
  unfold cosineSimilarity
  split
  · norm_num
  split
  · norm_num
  · rename_i hlen hz
    push_neg at hz
    have hA := normSq_nonneg a
    have hB := normSq_nonneg b
    have hA' : 0 < normSq a := lt_of_le_of_ne hA (Ne.symm hz.1)
    have hB' : 0 < normSq b := lt_of_le_of_ne hB (Ne.symm hz.2)
    have hsA : 0 < Real.sqrt (normSq a) := Real.sqrt_pos.mpr hA'
    have hsB : 0 < Real.sqrt (normSq b) := Real.sqrt_pos.mpr hB'
    constructor
    · exact div_nonneg (dot_nonneg ha hb) (le_of_lt (mul_pos hsA hsB))
    · rw [div_le_one (mul_pos hsA hsB)]
      have h2 : (dot a b) ^ 2 ≤ (Real.sqrt (normSq a) * Real.sqrt (normSq b)) ^ 2 := by
        rw [mul_pow, Real.sq_sqrt hA, Real.sq_sqrt hB]
        exact dot_sq_le a b
      calc dot a b ≤ |dot a b| := le_abs_self _
        _ = Real.sqrt ((dot a b) ^ 2) := (Real.sqrt_sq_eq_abs _).symm
        _ ≤ Real.sqrt ((Real.sqrt (normSq a) * Real.sqrt (normSq b)) ^ 2) :=
            Real.sqrt_le_sqrt h2
        _ = Real.sqrt (normSq a) * Real.sqrt (normSq b) :=
            Real.sqrt_sq (le_of_lt (mul_pos hsA hsB))

theorem round4_intValue {x : ℝ} (n : ℤ) (h : x * 10000 = n) : round4 x = n / 10000 := by
  unfold round4
  rw [h, round_intCast]

theorem round4_one : round4 (1 : ℝ) = 1 := by
  rw [round4_intValue 10000 (by norm_num)]
  norm_num

theorem round4_nonneg {x : ℝ} (h : 0 ≤ x) : 0 ≤ round4 x := by
  unfold round4
  apply div_nonneg _ (by norm_num)
  have h1 : (0 : ℤ) ≤ round (x * 10000) := by
    rw [round_eq]
    apply Int.floor_nonneg.mpr
    nlinarith
  exact_mod_cast h1

theorem round4_le_one {x : ℝ} (h : x ≤ 1) : round4 x ≤ 1 := by
  unfold round4
  rw [div_le_one (by norm_num)]
  have h2 : round (x * 10000) ≤ (10000 : ℤ) := by
    have h3 : (⌊x * 10000 + 1 / 2⌋ : ℤ) < 10001 := by
      apply Int.floor_lt.mpr
      push_cast
      nlinarith
    rw [round_eq]
    omega
  exact_mod_cast h2

theorem round4_zero : round4 (0 : ℝ) = 0 := by
  rw [round4_intValue 0 (by norm_num)]
  norm_num

/-- C5 as amended: combined similarity of a feature set with itself is 1.0
with all three component scores 1.0, PROVIDED the hour histogram, the day
histogram and the topic-distribution vector each have nonzero norm; when
one of those vectors is all zeros, `cosineSimilarity` returns 0 for it
instead of 1 (the zero-norm early return), so the claim fails as stated. -/
theorem self_similarity_amended (f : Features)
    (hh : ¬ normSq f.timing.hourDistribution = 0)
    (hd : ¬ normSq f.timing.dayDistribution = 0)
    (ht : ¬ normSq ((f.topicDistribution.map Prod.fst).map (lookupD f.topicDistribution)) = 0) :
    combinedSimilarity f f = { timing := 1, content := 1, topic := 1, combined := 1 } := by
  simp only [combinedSimilarity]
  rw [cos_self hh, cos_self hd, cos_self ht]
  simp only [sub_self, abs_zero, zero_div, sub_zero]
  norm_num [SimScores.mk.injEq, round4_one]

/-- Feature set with a nonzero topic vector for the C5 witness. -/
noncomputable def cfW5 : Features where
  timing := { hourDistribution := [1], dayDistribution := [1], avgInterval := 2 }
  content :=
    { avgLength := 40
      vocabRichness := 1/2
      questionRatio := 1/4
      codeBlockRatio := 0
      markdownDensity := 1 }
  topicDistribution := [("trading", 1)]

theorem self_similarity_amended_witness :
    combinedSimilarity cfW5 cfW5 = { timing := 1, content := 1, topic := 1, combined := 1 } :=
  self_similarity_amended cfW5
    (by show ¬ normSq [(1:ℝ)] = 0; norm_num [normSq, dot])
    (by show ¬ normSq [(1:ℝ)] = 0; norm_num [normSq, dot])
    (by
      have h1 : (cfW5.topicDistribution.map Prod.fst).map (lookupD cfW5.topicDistribution) = [(1:ℝ)] := rfl
      rw [h1]
      norm_num [normSq, dot])

/-- Feature set whose topic distribution is all zeros (an agent none of
whose posts matches any topic keyword): its topic self-cosine is 0. -/
noncomputable def cfC5 : Features where
  timing := { hourDistribution := [1], dayDistribution := [1], avgInterval := 0 }
  content :=
    { avgLength := 0
      vocabRichness := 0
      questionRatio := 0
      codeBlockRatio := 0
      markdownDensity := 0 }
  topicDistribution := [("trading", 0)]

theorem cos_one_one : cosineSimilarity [(1 : ℝ)] [1] = 1 :=
  cos_self (by norm_num [normSq, dot])

theorem cos_zero_zero : cosineSimilarity [(0 : ℝ)] [0] = 0 := by
  unfold cosineSimilarity
  rw [if_neg (not_not_intro rfl),
    if_pos (show normSq [(0:ℝ)] = 0 ∨ normSq [(0:ℝ)] = 0 by left; norm_num [normSq, dot])]

theorem round4_point6 : round4 ((3 : ℝ)/5) = 3/5 := by
  rw [round4_intValue 6000 (by norm_num)]
  norm_num

/-- C5 counterexample: for the concrete feature set `cfC5` (all-zero topic
vector) the self-similarity is NOT 1.0 — the topic component is 0 and the
combined score is 0.6 — refuting the claim as stated, which quantifies
over every feature set. -/
theorem self_similarity_counterexample :
    (combinedSimilarity cfC5 cfC5).topic = 0 ∧
    ¬ (combinedSimilarity cfC5 cfC5).combined = 1 := by
  have hv : (List.map (lookupD [("trading", (0:ℝ))]) (List.map Prod.fst [("trading", (0:ℝ))])) = [(0:ℝ)] := by
    simp [lookupD]
  have hcomb : combinedSimilarity cfC5 cfC5 = { timing := 1, content := 1, topic := 0, combined := 3/5 } := by
    simp only [combinedSimilarity, cfC5]
    rw [hv, cos_zero_zero, cos_one_one]
    norm_num [SimScores.mk.injEq, round4_one, round4_zero, round4_point6]
  rw [hcomb]
  norm_num

/-! ## C4: the range of the uniqueness score -/

/-- Feature sets as the extractor produces them: nonnegative histograms,
nonnegative interval and length, ratio fields in [0,1], nonnegative topic
shares. (`extractTimingFeatures` sorts timestamps ascending so the mean
interval is nonnegative; `vocabRichness`, `questionRatio`,
`codeBlockRatio` are ratios of counts.) -/
def WellFormed (f : Features) : Prop :=
  (∀ x ∈ f.timing.hourDistribution, 0 ≤ x) ∧
  (∀ x ∈ f.timing.dayDistribution, 0 ≤ x) ∧
  0 ≤ f.timing.avgInterval ∧
  0 ≤ f.content.avgLength ∧
  (0 ≤ f.content.vocabRichness ∧ f.content.vocabRichness ≤ 1) ∧
  (0 ≤ f.content.questionRatio ∧ f.content.questionRatio ≤ 1) ∧
  (0 ≤ f.content.codeBlockRatio ∧ f.content.codeBlockRatio ≤ 1) ∧
  (∀ p ∈ f.topicDistribution, 0 ≤ p.2)

theorem closeness_mem_unit {u v : ℝ} (hu : 0 ≤ u) (hv : 0 ≤ v) :
    0 ≤ 1 - |u - v| / max (max u v) 1 ∧ 1 - |u - v| / max (max u v) 1 ≤ 1 := by
  have hm1 : (1 : ℝ) ≤ max (max u v) 1 := le_max_right _ _
  have hm0 : (0 : ℝ) < max (max u v) 1 := lt_of_lt_of_le one_pos hm1
  have h1 : u ≤ max (max u v) 1 := le_trans (le_max_left u v) (le_max_left _ _)
  have h2 : v ≤ max (max u v) 1 := le_trans (le_max_right u v) (le_max_left _ _)
  constructor
  · have habs : |u - v| ≤ max (max u v) 1 := by
      rw [abs_le]
      constructor <;> linarith
    have hd := (div_le_one hm0).mpr habs
    linarith
  · have hd : 0 ≤ |u - v| / max (max u v) 1 := div_nonneg (abs_nonneg _) (le_of_lt hm0)
    linarith

theorem one_sub_abs_mem {u v : ℝ} (hu0 : 0 ≤ u) (hu1 : u ≤ 1) (hv0 : 0 ≤ v) (hv1 : v ≤ 1) :
    0 ≤ 1 - |u - v| ∧ 1 - |u - v| ≤ 1 := by
  constructor
  · have : |u - v| ≤ 1 := by
      rw [abs_le]
      constructor <;> linarith
    linarith
  · have := abs_nonneg (u - v)
    linarith

theorem lookupD_nonneg {l : List (String × ℝ)} (h : ∀ p ∈ l, 0 ≤ p.2) (k : String) :
    0 ≤ lookupD l k := by
  unfold lookupD
  cases hf : l.find? (fun p => p.1 = k) with
  | none => exact le_refl 0
  | some p => exact h p (List.mem_of_find?_eq_some hf)

theorem topicVec_nonneg {l l2 : List (String × ℝ)} (h : ∀ p ∈ l2, 0 ≤ p.2) :
    ∀ x ∈ (l.map Prod.fst).map (lookupD l2), 0 ≤ x := by
  intro x hx
  simp only [List.mem_map] at hx
  obtain ⟨k, _, rfl⟩ := hx
  exact lookupD_nonneg h k

theorem combined_mem_unit (f1 f2 : Features) (h1 : WellFormed f1) (h2 : WellFormed f2) :
    0 ≤ (combinedSimilarity f1 f2).combined ∧ (combinedSimilarity f1 f2).combined ≤ 1 := by
  obtain ⟨h1h, h1d, h1i, h1l, h1v, h1q, h1c, h1t⟩ := h1
  obtain ⟨h2h, h2d, h2i, h2l, h2v, h2q, h2c, h2t⟩ := h2
  have hhour := cosine_mem_unit f1.timing.hourDistribution f2.timing.hourDistribution h1h h2h
  have hday := cosine_mem_unit f1.timing.dayDistribution f2.timing.dayDistribution h1d h2d
  have hint := closeness_mem_unit h1i h2i
  have hlen := closeness_mem_unit h1l h2l
  have hvocab := one_sub_abs_mem h1v.1 h1v.2 h2v.1 h2v.2
  have hq := one_sub_abs_mem h1q.1 h1q.2 h2q.1 h2q.2
  have hcode := one_sub_abs_mem h1c.1 h1c.2 h2c.1 h2c.2
  have htopic := cosine_mem_unit
    ((f1.topicDistribution.map Prod.fst).map (lookupD f1.topicDistribution))
    ((f1.topicDistribution.map Prod.fst).map (lookupD f2.topicDistribution))
    (topicVec_nonneg h1t) (topicVec_nonneg h2t)
  simp only [combinedSimilarity]
  constructor
  · apply round4_nonneg
    nlinarith [hhour.1, hhour.2, hday.1, hday.2, hint.1, hint.2, hlen.1, hlen.2,
      hvocab.1, hvocab.2, hq.1, hq.2, hcode.1, hcode.2, htopic.1, htopic.2]
  · apply round4_le_one
    nlinarith [hhour.1, hhour.2, hday.1, hday.2, hint.1, hint.2, hlen.1, hlen.2,
      hvocab.1, hvocab.2, hq.1, hq.2, hcode.1, hcode.2, htopic.1, htopic.2]

/-- C4 as amended: for feature sets of the extractor's shape (`WellFormed`)
the uniqueness score always lies in [0,1], and with an empty comparison
population it is exactly 1.0. As literally stated — over EVERY feature
set — the claim fails, because `combinedSimilarity` performs no clamping
(see the counterexample): an ill-formed feature value drives the combined
similarity negative and the uniqueness above 1. -/
theorem uniqueness_range_amended :
    (∀ (f : Features) (sample : List (Option Features)), WellFormed f →
      (∀ g, some g ∈ sample → WellFormed g) →
      0 ≤ computeUniqueness f sample ∧ computeUniqueness f sample ≤ 1) ∧
    (∀ f : Features, computeUniqueness f [] = 1) := by
  constructor
  · intro f sample hf hs
    simp only [computeUniqueness]
    split
    · norm_num
    · split
      · norm_num
      · rename_i hne hsne
        have hmem : ∀ x ∈ (sample.filterMap id).map
            (fun g => (combinedSimilarity f g).combined), 0 ≤ x ∧ x ≤ 1 := by
          intro x hx
          simp only [List.mem_map, List.mem_filterMap, id] at hx
          obtain ⟨g, ⟨og, hog, hid⟩, rfl⟩ := hx
          subst hid
          exact combined_mem_unit f g hf (hs g hog)
        set S := (sample.filterMap id).map (fun g => (combinedSimilarity f g).combined) with hS
        have hSne : S ≠ [] := by
          simpa [List.isEmpty_iff] using hsne
        have hlen0 : 0 < (S.length : ℝ) := by
          have := List.length_pos.mpr hSne
          exact_mod_cast this
        have hsum0 : 0 ≤ S.sum := List.sum_nonneg (fun x hx => (hmem x hx).1)
        have hsum1 : S.sum ≤ (S.length : ℝ) := by
          have := List.sum_le_card_nsmul S 1 (fun x hx => (hmem x hx).2)
          simpa [nsmul_eq_mul] using this
        have havg0 : 0 ≤ S.sum / S.length := div_nonneg hsum0 (le_of_lt hlen0)
        have havg1 : S.sum / S.length ≤ 1 := (div_le_one hlen0).mpr hsum1
        constructor
        · exact round4_nonneg (by linarith)
        · exact round4_le_one (by linarith)
  · intro f
    rfl

theorem wellFormed_cfW5 : WellFormed cfW5 := by
  refine ⟨?_, ?_, ?_, ?_, ?_, ?_, ?_, ?_⟩ <;> simp [cfW5] <;> norm_num

theorem uniqueness_range_amended_witness :
    (0 ≤ computeUniqueness cfW5 [some cfW5] ∧ computeUniqueness cfW5 [some cfW5] ≤ 1) ∧
    computeUniqueness cfW5 [] = 1 :=
  ⟨uniqueness_range_amended.1 cfW5 [some cfW5] wellFormed_cfW5
    (fun g hg => by
      simp only [List.mem_singleton, Option.some.injEq] at hg
      subst hg
      exact wellFormed_cfW5),
   uniqueness_range_amended.2 cfW5⟩

/-- Agent feature set with a (physically impossible, but unchecked)
negative mean interval. -/
noncomputable def cf4a : Features where
  timing := { hourDistribution := [1], dayDistribution := [1], avgInterval := -99 }
  content :=
    { avgLength := 0
      vocabRichness := 0
      questionRatio := 0
      codeBlockRatio := 0
      markdownDensity := 0 }
  topicDistribution := [("trading", 1)]

/-- Comparison feature set for the C4 counterexample. -/
noncomputable def cf4b : Features where
  timing := { hourDistribution := [1], dayDistribution := [1], avgInterval := 0 }
  content :=
    { avgLength := 0
      vocabRichness := 0
      questionRatio := 0
      codeBlockRatio := 0
      markdownDensity := 0 }
  topicDistribution := [("trading", 1)]

/-- C4 counterexample: with no clamping anywhere in `combinedSimilarity`,
the interval-closeness term reaches −98, the combined similarity −4.94,
and the uniqueness score 5.94 — outside [0,1] — refuting the claim as
stated over every feature set and comparison population. -/
theorem uniqueness_range_counterexample : 1 < computeUniqueness cf4a [some cf4b] := by
  have habs : |(-99 : ℝ) - 0| = 99 := by
    rw [abs_of_nonpos (by norm_num)]
    norm_num
  have hz : |(0 : ℝ) - 0| = 0 := by simp
  have hm1 : max (max (-99 : ℝ) 0) 1 = 1 := by
    rw [max_eq_right (by norm_num : (-99 : ℝ) ≤ 0), max_eq_right (by norm_num : (0 : ℝ) ≤ 1)]
  have hm2 : max (max (0 : ℝ) 0) 1 = 1 := by
    rw [max_self, max_eq_right (by norm_num : (0 : ℝ) ≤ 1)]
  have hvv : (List.map (lookupD [("trading", (1:ℝ))]) (List.map Prod.fst [("trading", (1:ℝ))])) = [(1:ℝ)] := rfl
  have hcomb : (combinedSimilarity cf4a cf4b).combined = -247/50 := by
    simp only [combinedSimilarity, cf4a, cf4b]
    rw [hvv]
    simp only [cos_one_one, habs, hz, hm1, hm2]
    rw [round4_intValue (-49400) (by norm_num)]
    norm_num
  have hcu : computeUniqueness cf4a [some cf4b] = 297/50 := by
    simp only [computeUniqueness, List.isEmpty_cons, List.filterMap_cons, List.filterMap_nil,
      id, List.map_cons, List.map_nil, List.sum_cons, List.sum_nil, List.length_cons,
      List.length_nil, Bool.false_eq_true, if_false]
    rw [hcomb]
    rw [round4_intValue 59400 (by norm_num)]
    norm_num
  rw [hcu]
  norm_num

theorem pendingAnchor_ceiling_witness :
    anchorW ∈ stateW8.pendingAnchors ∧ 5 ≤ anchorW.retries ∧
    anchorW ∉ getPendingAnchors stateW8 ∧ anchorW ∈ (fullDump stateW8).pendingAnchors := by
  have h1 : anchorW ∈ stateW8.pendingAnchors := by simp [stateW8]
  have h2 : (5 : ℕ) ≤ anchorW.retries := by norm_num [anchorW]
  obtain ⟨ha, hb, _⟩ := pendingAnchor_ceiling stateW8 anchorW h1 h2
  exact ⟨h1, h2, ha, hb⟩

end MoltVerify
